import Mathlib

/-!
Shallow embedding of the Level Zero adapter command-buffer implementation
(source/adapters/level_zero/command_buffer.cpp) of the unified-runtime
repository, together with theorems settling the frozen claims about it.

Modelling conventions:
* Level Zero handles (events, kernels, command ids, queues, fences) are
  modelled as natural-number identifiers.
* Native Level Zero command lists are modelled as Lean lists of commands;
  a native append call appends an element.  Native driver calls are
  modelled as succeeding: the theorems are about the adapter logic layered
  above the driver.
* Machine integers (uint32_t / size_t counters, bit masks) are modelled as
  Nat; none of the modelled code paths can overflow them.
* Fallible operations return an Except over the subset of ur_result_t
  codes the modelled code can produce.
-/

deriving instance DecidableEq for Except

namespace CommandBufferModel

/-- The subset of ur_result_t codes produced by the modelled code paths. -/
inductive UrResult where
  | success
  | errorInvalidValue
  | errorInvalidOperation
  | errorUnsupportedFeature
  | errorInvalidNullPointer
  | errorInvalidNullHandle
  | errorInvalidWorkDimension
  | errorInvalidArgument
  | errorOutOfHostMemory
  deriving DecidableEq, Repr

/-- Device capabilities consulted by the command-buffer code:
copy-engine presence (Device->hasMainCopyEngine), the per-engine
maxMemoryFillPatternSize from QueueGroup[...].ZeProperties, and the
ZeDeviceMutableCmdListsProperties->mutableCommandFlags bitmask. -/
structure Device where
  hasMainCopyEngine : Bool
  copyMaxMemoryFillPatternSize : Nat
  computeMaxMemoryFillPatternSize : Nat
  mutableCommandFlags : Nat
  deriving DecidableEq, Repr

/-- Platform/driver capabilities consulted by the command-buffer code:
ZeMutableCmdListExt.Supported, ZeDriverGlobalOffsetExtensionFound, and
whether isDriverVersionNewerOrSimilar(.., L0_DRIVER_INORDER_MIN_VERSION)
holds. -/
structure Platform where
  zeMutableCmdListExtSupported : Bool
  zeDriverGlobalOffsetExtensionFound : Bool
  driverInOrderCompatible : Bool
  deriving DecidableEq, Repr

/-- ur_exp_command_buffer_desc_t: the user-supplied creation descriptor. -/
structure CommandBufferDesc where
  isUpdatable : Bool
  isInOrder : Bool
  enableProfiling : Bool
  deriving DecidableEq, Repr

/-- A kernel handle; the command-buffer code only consults whether
Kernel->Program is non-null (and otherwise forwards the handle). -/
structure Kernel where
  id : Nat
  hasProgram : Bool
  deriving DecidableEq, Repr

/-- A command recorded into one of the native command lists.  Event
arguments record the signal event (if any) and the wait events, in the
order they are passed to the native append call. -/
inductive ZeCommand where
  | barrier (signal : Option Nat) (waits : List Nat)
  | signalEvent (e : Nat)
  | eventReset (e : Nat)
  | waitOnEvents (es : List Nat)
  | memoryCopy (signal : Option Nat) (waits : List Nat)
  | memoryCopyRegion (signal : Option Nat) (waits : List Nat)
  | memoryFill (patternSize size : Nat) (signal : Option Nat) (waits : List Nat)
  | launchKernel (kernel : Nat) (signal : Option Nat) (waits : List Nat)
  | memoryPrefetch
  | memAdvise
  deriving DecidableEq, Repr

/-- Which of the two recordable native lists a command goes to. -/
inductive ListKind where
  | compute
  | copy
  deriving DecidableEq, Repr

/-- ur_exp_command_buffer_handle_t_: the command-buffer (command graph)
state.  nextEventId models the context event allocator (EventCreate hands
out fresh events); nextCommandId models zeCommandListGetNextCommandIdExp;
nextFenceId models zeFenceCreate. -/
structure CommandBuffer where
  device : Device
  platform : Platform
  isInOrderCmdList : Bool
  isUpdatable : Bool
  isProfilingEnabled : Bool
  isFinalized : Bool
  hasCopyList : Bool
  mCopyCommandListEmpty : Bool
  syncPoints : List (Nat × Nat)
  nextSyncPoint : Nat
  zeEventsList : List Nat
  zeComputeCommandList : List ZeCommand
  zeCopyCommandList : List ZeCommand
  zeCommandListResetEvents : List ZeCommand
  kernelsList : List Nat
  signalEvent : Nat
  waitEvent : Nat
  allResetEvent : Nat
  zeFencesMap : List (Nat × Nat)
  zeActiveFence : Option Nat
  nextEventId : Nat
  nextCommandId : Nat
  nextFenceId : Nat
  deriving DecidableEq, Repr

/-- Modelled from the spec: the useCopyEngine accessor of the
command-buffer handle (declared in the command_buffer.hpp header, which is
not part of the sources): the copy command list is present exactly when
the device has a main copy engine, and useCopyEngine reports its
presence. -/
def CommandBuffer.useCopyEngine (cb : CommandBuffer) : Bool :=
  cb.hasCopyList

/-- Modelled from the spec: getNextSyncPoint (declared in the missing
command_buffer.hpp header): sync points are a monotonically increasing
counter, and the next sync point is the current counter value. -/
def CommandBuffer.getNextSyncPoint (cb : CommandBuffer) : Nat :=
  cb.nextSyncPoint

/-- Lookup in the SyncPoints map (std::unordered_map find). -/
def lookupSyncPoint (sps : List (Nat × Nat)) (sp : Nat) : Option Nat :=
  match sps.find? (fun p => p.1 == sp) with
  | some p => some p.2
  | none => none

/-- Map assignment SyncPoints[sp] = ev (overwrites an existing key,
otherwise inserts). -/
def insertSyncPoint (sps : List (Nat × Nat)) (sp ev : Nat) : List (Nat × Nat) :=
  match sps with
  | [] => [(sp, ev)]
  | (k, v) :: rest =>
      if k = sp then (sp, ev) :: rest else (k, v) :: insertSyncPoint rest sp ev

/-- ur_exp_command_buffer_handle_t_::registerSyncPoint: stores the
mapping, advances NextSyncPoint, and appends the event to ZeEventsList. -/
def CommandBuffer.registerSyncPoint (cb : CommandBuffer) (sp ev : Nat) :
    CommandBuffer :=
  { cb with
    syncPoints := insertSyncPoint cb.syncPoints sp ev
    nextSyncPoint := cb.nextSyncPoint + 1
    zeEventsList := cb.zeEventsList ++ [ev] }

/-- getEventsFromSyncPoints: for each sync point in the wait list, in
order, look up the associated event; fail with invalid value on the first
sync point that is not registered.  (A null/empty wait list yields no
events.) -/
def getEventsFromSyncPoints (cb : CommandBuffer) :
    List Nat → Except UrResult (List Nat)
  | [] => .ok []
  | sp :: rest =>
      match lookupSyncPoint cb.syncPoints sp with
      | some ev =>
          match getEventsFromSyncPoints cb rest with
          | .ok evs => .ok (ev :: evs)
          | .error e => .error e
      | none => .error .errorInvalidValue

/-- Result of createSyncPointAndGetZeEvents: the updated buffer, the sync
point handed back through the RetSyncPoint out-parameter (none when the
buffer is in order and the out-parameter is left untouched), the resolved
wait events, and the launch event to signal (none when in order). -/
structure SyncPointResult where
  cb : CommandBuffer
  retSyncPoint : Option Nat
  zeEventList : List Nat
  zeLaunchEvent : Option Nat
  deriving DecidableEq, Repr

/-- createSyncPointAndGetZeEvents: skipped entirely for in-order buffers;
otherwise resolves the wait list, allocates a fresh completion event
(EventCreate), registers it under the next sync point and returns that
sync point.  hostVisible only parameterizes the native event creation. -/
def createSyncPointAndGetZeEvents (cb : CommandBuffer) (waitList : List Nat)
    (hostVisible : Bool) : Except UrResult SyncPointResult :=
  if cb.isInOrderCmdList then
    .ok ⟨cb, none, [], none⟩
  else
    match getEventsFromSyncPoints cb waitList with
    | .error e => .error e
    | .ok zeEventList =>
        let launchEvent := cb.nextEventId
        let cb1 : CommandBuffer := { cb with nextEventId := cb.nextEventId + 1 }
        let syncPoint := cb1.getNextSyncPoint
        let cb2 := cb1.registerSyncPoint syncPoint launchEvent
        let _ := hostVisible
        .ok ⟨cb2, some syncPoint, zeEventList, some launchEvent⟩

/-- ur_exp_command_buffer_handle_t_::chooseCommandList: picks the copy
list only when the caller prefers the copy engine, the buffer has one, and
the buffer is not in order; choosing the copy list marks it non-empty. -/
def CommandBuffer.chooseCommandList (cb : CommandBuffer)
    (preferCopyEngine : Bool) : CommandBuffer × ListKind :=
  if preferCopyEngine && cb.useCopyEngine && !cb.isInOrderCmdList then
    ({ cb with mCopyCommandListEmpty := false }, .copy)
  else
    (cb, .compute)

/-- Appends a native command to the chosen command list. -/
def CommandBuffer.appendNative (cb : CommandBuffer) (k : ListKind)
    (c : ZeCommand) : CommandBuffer :=
  match k with
  | .compute => { cb with zeComputeCommandList := cb.zeComputeCommandList ++ [c] }
  | .copy => { cb with zeCopyCommandList := cb.zeCopyCommandList ++ [c] }

/-- Appends a native command to the compute command list. -/
def CommandBuffer.appendCompute (cb : CommandBuffer) (c : ZeCommand) :
    CommandBuffer :=
  { cb with zeComputeCommandList := cb.zeComputeCommandList ++ [c] }

/-- Appends a native command to the reset-events command list. -/
def CommandBuffer.appendResetList (cb : CommandBuffer) (c : ZeCommand) :
    CommandBuffer :=
  { cb with
    zeCommandListResetEvents := cb.zeCommandListResetEvents ++ [c] }

/-- preferCopyEngineForFill: defaults to the compute engine; with a copy
engine present, prefers copy only when the pattern size fits the copy
engine's maximum, errors with invalid value when the pattern fits neither
engine, and finally gates copy-engine use on the
UR_L0_USE_COPY_ENGINE_FOR_FILL / SYCL_PI_LEVEL_ZERO_USE_COPY_ENGINE_FOR_FILL
environment override (modelled by envUseCopyEngineForFill; both unset
reads as 0, i.e. false). -/
def preferCopyEngineForFill (cb : CommandBuffer) (patternSize : Nat)
    (envUseCopyEngineForFill : Bool) : Except UrResult Bool :=
  if !cb.useCopyEngine then
    .ok false
  else
    let preferCopyEngine :=
      patternSize ≤ cb.device.copyMaxMemoryFillPatternSize
    if !preferCopyEngine &&
        !(patternSize ≤ cb.device.computeMaxMemoryFillPatternSize) then
      .error .errorInvalidValue
    else
      .ok (preferCopyEngine && envUseCopyEngineForFill)

/-- enqueueCommandBufferMemCopyHelper: creates the sync point, chooses the
list from the caller's copy-engine preference and appends the native
memory copy. -/
def enqueueCommandBufferMemCopyHelper (cb : CommandBuffer)
    (preferCopyEngine : Bool) (waitList : List Nat) :
    Except UrResult (CommandBuffer × Option Nat) :=
  match createSyncPointAndGetZeEvents cb waitList false with
  | .error e => .error e
  | .ok r =>
      let (cb1, k) := r.cb.chooseCommandList preferCopyEngine
      .ok (cb1.appendNative k (.memoryCopy r.zeLaunchEvent r.zeEventList),
           r.retSyncPoint)

/-- enqueueCommandBufferMemCopyRectHelper: as the plain copy helper but
appending a native region copy. -/
def enqueueCommandBufferMemCopyRectHelper (cb : CommandBuffer)
    (preferCopyEngine : Bool) (waitList : List Nat) :
    Except UrResult (CommandBuffer × Option Nat) :=
  match createSyncPointAndGetZeEvents cb waitList false with
  | .error e => .error e
  | .ok r =>
      let (cb1, k) := r.cb.chooseCommandList preferCopyEngine
      .ok (cb1.appendNative k (.memoryCopyRegion r.zeLaunchEvent r.zeEventList),
           r.retSyncPoint)

/-- enqueueCommandBufferFillHelper: rejects a pattern size that is zero or
not a power of two with invalid value, creates a host-visible sync point,
computes the engine preference via preferCopyEngineForFill and appends the
native fill. -/
def enqueueCommandBufferFillHelper (cb : CommandBuffer)
    (patternSize size : Nat) (waitList : List Nat)
    (envUseCopyEngineForFill : Bool) :
    Except UrResult (CommandBuffer × Option Nat) :=
  if 0 < patternSize ∧ (patternSize &&& (patternSize - 1)) = 0 then
    match createSyncPointAndGetZeEvents cb waitList true with
    | .error e => .error e
    | .ok r =>
        match preferCopyEngineForFill r.cb patternSize envUseCopyEngineForFill with
        | .error e => .error e
        | .ok preferCopyEngine =>
            let (cb1, k) := r.cb.chooseCommandList preferCopyEngine
            .ok (cb1.appendNative k
                   (.memoryFill patternSize size r.zeLaunchEvent r.zeEventList),
                 r.retSyncPoint)
  else
    .error .errorInvalidValue

/-- setKernelGlobalOffset (the command_buffer.cpp copy): errors with
invalid value when the driver lacks the global-offset extension, otherwise
forwards the offset to zeKernelSetGlobalOffsetExp. -/
def setKernelGlobalOffset (cb : CommandBuffer) (kernel : Kernel)
    (globalWorkOffset : List Nat) : Except UrResult Unit :=
  let _ := kernel
  let _ := globalWorkOffset
  if !cb.platform.zeDriverGlobalOffsetExtensionFound then
    .error .errorInvalidValue
  else
    .ok ()

/-- Modelled from the spec: calculateKernelWorkDimensions (declared in
helpers/kernel_helpers.hpp; its definition is not part of the sources)
computes the group count and group size from the requested global/local
work sizes, falling back to a driver-suggested local size when none is
given. -/
def calculateKernelWorkDimensions (workDim : Nat) (globalWorkSize : List Nat)
    (localWorkSize : Option (List Nat)) : Except UrResult (List Nat × List Nat) :=
  match localWorkSize with
  | some wg => .ok (globalWorkSize.zipWith (fun g w => g / w) wg, wg)
  | none => .ok (globalWorkSize, List.replicate workDim 1)

/-- ur_exp_command_buffer_command_handle_t_: a mutable kernel-launch
command handle. -/
structure CommandHandle where
  commandId : Nat
  workDim : Nat
  userDefinedLocalSize : Bool
  kernel : Option Kernel
  deriving DecidableEq, Repr

/-- createCommandHandle: obtains the next mutable command id from the
native list (zeCommandListGetNextCommandIdExp) and wraps it in a command
handle remembering the work dimensionality and whether a local work size
was user-specified. -/
def createCommandHandle (cb : CommandBuffer) (kernel : Kernel)
    (workDim : Nat) (localWorkSize : Option (List Nat)) :
    CommandBuffer × CommandHandle :=
  let commandId := cb.nextCommandId
  ({ cb with nextCommandId := cb.nextCommandId + 1 },
   ⟨commandId, workDim, localWorkSize.isSome, some kernel⟩)

/-- The kernel bookkeeping performed by a kernel-launch append before its
sync point is created: the kernel is recorded into the buffer's kernel
list and, when the caller asks for a command handle and the buffer is
updatable, a command handle is created. -/
def kernelLaunchPrepare (cb : CommandBuffer) (kernel : Kernel)
    (workDim : Nat) (localWorkSize : Option (List Nat))
    (wantCommand : Bool) : CommandBuffer × Option CommandHandle :=
  let cb1 : CommandBuffer :=
    { cb with kernelsList := cb.kernelsList ++ [kernel.id] }
  if wantCommand && cb1.isUpdatable then
    ((createCommandHandle cb1 kernel workDim localWorkSize).1,
     some (createCommandHandle cb1 kernel workDim localWorkSize).2)
  else
    (cb1, none)

/-- urCommandBufferAppendKernelLaunchExp: checks the kernel has a backing
program, applies the global offset (failing when the driver lacks the
extension), computes the work dimensions, records the kernel into the
buffer's kernel list, optionally creates a command handle (only when the
caller asks for one and the buffer is updatable), creates the sync point
and appends the native kernel launch to the compute list. -/
def urCommandBufferAppendKernelLaunchExp (cb : CommandBuffer)
    (kernel : Kernel) (workDim : Nat) (globalWorkOffset : Option (List Nat))
    (globalWorkSize : List Nat) (localWorkSize : Option (List Nat))
    (waitList : List Nat) (wantCommand : Bool) :
    Except UrResult (CommandBuffer × Option Nat × Option CommandHandle) :=
  if !kernel.hasProgram then
    .error .errorInvalidNullPointer
  else
    match
      match globalWorkOffset with
      | some gwo => setKernelGlobalOffset cb kernel gwo
      | none => .ok () with
    | .error e => .error e
    | .ok _ =>
        match calculateKernelWorkDimensions workDim globalWorkSize localWorkSize with
        | .error e => .error e
        | .ok _ =>
            match createSyncPointAndGetZeEvents
                (kernelLaunchPrepare cb kernel workDim localWorkSize
                  wantCommand).1 waitList false with
            | .error e => .error e
            | .ok r =>
                .ok (r.cb.appendCompute
                       (.launchKernel kernel.id r.zeLaunchEvent r.zeEventList),
                     r.retSyncPoint,
                     (kernelLaunchPrepare cb kernel workDim localWorkSize
                       wantCommand).2)

/-- urCommandBufferAppendUSMPrefetchExp: in-order buffers record the bare
prefetch; otherwise a host-visible sync point is created, the wait events
are waited on explicitly, and the launch event is signalled manually after
the prefetch. -/
def urCommandBufferAppendUSMPrefetchExp (cb : CommandBuffer)
    (waitList : List Nat) : Except UrResult (CommandBuffer × Option Nat) :=
  if cb.isInOrderCmdList then
    .ok (cb.appendCompute .memoryPrefetch, none)
  else
    match createSyncPointAndGetZeEvents cb waitList true with
    | .error e => .error e
    | .ok r =>
        let cb1 :=
          if waitList.length ≠ 0 then
            r.cb.appendCompute (.waitOnEvents r.zeEventList)
          else
            r.cb
        let cb2 := cb1.appendCompute .memoryPrefetch
        let cb3 :=
          match r.zeLaunchEvent with
          | some ev => cb2.appendCompute (.signalEvent ev)
          | none => cb2
        .ok (cb3, r.retSyncPoint)

/-- urCommandBufferAppendUSMAdviseExp: same structure as the prefetch
append, recording a native memory-advise command. -/
def urCommandBufferAppendUSMAdviseExp (cb : CommandBuffer)
    (waitList : List Nat) : Except UrResult (CommandBuffer × Option Nat) :=
  if cb.isInOrderCmdList then
    .ok (cb.appendCompute .memAdvise, none)
  else
    match createSyncPointAndGetZeEvents cb waitList true with
    | .error e => .error e
    | .ok r =>
        let cb1 :=
          if waitList.length ≠ 0 then
            r.cb.appendCompute (.waitOnEvents r.zeEventList)
          else
            r.cb
        let cb2 := cb1.appendCompute .memAdvise
        let cb3 :=
          match r.zeLaunchEvent with
          | some ev => cb2.appendCompute (.signalEvent ev)
          | none => cb2
        .ok (cb3, r.retSyncPoint)

/-- canBeInOrder: in-order command lists are only used when the driver is
new enough; otherwise the descriptor's isInOrder request is silently
dropped. -/
def canBeInOrder (platform : Platform) (desc : Option CommandBufferDesc) :
    Bool :=
  if platform.driverInOrderCompatible then
    match desc with
    | some d => d.isInOrder
    | none => false
  else
    false

/-- urCommandBufferCreateExp: rejects an updatable request when the
mutable-command-list extension is unsupported, creates the signal/wait/
all-reset events (ids 0, 1, 2), the compute list (opening with a barrier
on the wait and all-reset events), the reset-events list (opening with a
reset of the signal event), and, when the device has a main copy engine, a
copy list opening with the same barrier. -/
def urCommandBufferCreateExp (platform : Platform) (device : Device)
    (desc : Option CommandBufferDesc) : Except UrResult CommandBuffer :=
  let isInOrder := canBeInOrder platform desc
  let enableProfiling :=
    match desc with
    | some d => d.enableProfiling
    | none => false
  let isUpdatable :=
    match desc with
    | some d => d.isUpdatable
    | none => false
  if isUpdatable && !platform.zeMutableCmdListExtSupported then
    .error .errorUnsupportedFeature
  else
    let signalEvent := 0
    let waitEvent := 1
    let allResetEvent := 2
    let precondEvents := [waitEvent, allResetEvent]
    .ok
      { device := device
        platform := platform
        isInOrderCmdList := isInOrder
        isUpdatable := isUpdatable
        isProfilingEnabled := enableProfiling
        isFinalized := false
        hasCopyList := device.hasMainCopyEngine
        mCopyCommandListEmpty := true
        syncPoints := []
        nextSyncPoint := 0
        zeEventsList := []
        zeComputeCommandList := [.barrier none precondEvents]
        zeCopyCommandList :=
          if device.hasMainCopyEngine then [.barrier none precondEvents] else []
        zeCommandListResetEvents := [.eventReset signalEvent]
        kernelsList := []
        signalEvent := signalEvent
        waitEvent := waitEvent
        allResetEvent := allResetEvent
        zeFencesMap := []
        zeActiveFence := none
        nextEventId := 3
        nextCommandId := 0
        nextFenceId := 0 }

/-- urCommandBufferFinalizeExp: appends the completion signalling (a bare
signal for in-order buffers; per-event resets on the reset list followed
by a barrier over all tracked events for the rest), signals the all-reset
event on the reset list, closes the lists, and sets IsFinalized.  The
function performs no check of a previous finalization. -/
def urCommandBufferFinalizeExp (cb : CommandBuffer) :
    Except UrResult CommandBuffer :=
  let cb1 :=
    if cb.isInOrderCmdList then
      cb.appendCompute (.signalEvent cb.signalEvent)
    else
      let cbResets :=
        cb.zeEventsList.foldl
          (fun acc ev => acc.appendResetList (.eventReset ev)) cb
      cbResets.appendCompute
        (.barrier (some cb.signalEvent) cb.zeEventsList)
  let cb2 := cb1.appendResetList (.signalEvent cb.allResetEvent)
  .ok { cb2 with isFinalized := true }

/-- A UR queue, resolved to its physical compute and copy command queues
(getZeCommandQueue with UseCopyEngine false / true). -/
structure Queue where
  computeQueue : Nat
  copyQueue : Nat
  deriving DecidableEq, Repr

/-- One native command-queue submission performed during enqueue, in
program order. -/
inductive Submission where
  | waitCommandList (queue : Nat)
  | resetEventsList (queue : Nat)
  | computeList (queue : Nat) (fence : Nat)
  | copyList (queue : Nat)
  | signalCommandList (queue : Nat)
  deriving DecidableEq, Repr

/-- ur_exp_command_buffer_handle_t_::getFenceForQueue: reuses (after a
reset) the fence already created for this queue, or creates and records a
new one; either way it becomes the active fence. -/
def CommandBuffer.getFenceForQueue (cb : CommandBuffer) (queue : Nat) :
    CommandBuffer × Nat :=
  match cb.zeFencesMap.find? (fun p => p.1 == queue) with
  | some p => ({ cb with zeActiveFence := some p.2 }, p.2)
  | none =>
      let f := cb.nextFenceId
      ({ cb with
          zeFencesMap := cb.zeFencesMap ++ [(queue, f)]
          nextFenceId := f + 1
          zeActiveFence := some f }, f)

/-- urCommandBufferEnqueueExp: obtains the per-queue fence, satisfies the
caller's dependencies (an auxiliary barrier list when the wait list is
non-empty, a host signal of the wait event otherwise), submits the
reset-events list, then the compute list with the fence, then — only when
the copy list is marked non-empty — the copy list to the copy queue, and
finally a signal command list that resets the wait and all-reset events
and optionally signals a freshly created user event.  Returns the updated
buffer, the submissions in order, and the user event. -/
def urCommandBufferEnqueueExp (cb : CommandBuffer) (queue : Queue)
    (eventWaitList : List Nat) (wantEvent : Bool) :
    CommandBuffer × List Submission × Option Nat :=
  let cb1 := (cb.getFenceForQueue queue.computeQueue).1
  let zeFence := (cb.getFenceForQueue queue.computeQueue).2
  let cb2 :=
    if wantEvent then { cb1 with nextEventId := cb1.nextEventId + 1 } else cb1
  (cb2,
   (if eventWaitList.length ≠ 0 then
      [Submission.waitCommandList queue.computeQueue]
    else []) ++
     [Submission.resetEventsList queue.computeQueue,
      Submission.computeList queue.computeQueue zeFence] ++
     (if !cb1.mCopyCommandListEmpty then
       [Submission.copyList queue.copyQueue]
      else []) ++
     [Submission.signalCommandList queue.computeQueue],
   if wantEvent then some cb1.nextEventId else none)

/-- ZE_MUTABLE_COMMAND_EXP_FLAG_KERNEL_ARGUMENTS. -/
def zeMutableCommandFlagKernelArguments : Nat := 1

/-- ZE_MUTABLE_COMMAND_EXP_FLAG_GROUP_COUNT. -/
def zeMutableCommandFlagGroupCount : Nat := 2

/-- ZE_MUTABLE_COMMAND_EXP_FLAG_GROUP_SIZE. -/
def zeMutableCommandFlagGroupSize : Nat := 4

/-- ZE_MUTABLE_COMMAND_EXP_FLAG_GLOBAL_OFFSET. -/
def zeMutableCommandFlagGlobalOffset : Nat := 8

/-- UR_MEM_FLAG_READ_WRITE. -/
def urMemFlagReadWrite : Nat := 1

/-- UR_MEM_FLAG_WRITE_ONLY. -/
def urMemFlagWriteOnly : Nat := 2

/-- UR_MEM_FLAG_READ_ONLY. -/
def urMemFlagReadOnly : Nat := 4

/-- ur_exp_command_buffer_update_memobj_arg_desc_t: a new memory-object
argument (a null handle passes a null argument value); pProperties
optionally carries the access-mode flag. -/
structure MemObjArgDesc where
  argIndex : Nat
  hNewMemObjArg : Option Nat
  pProperties : Option Nat
  deriving DecidableEq, Repr

/-- ur_exp_command_buffer_update_pointer_arg_desc_t: a new raw pointer
argument. -/
structure PointerArgDesc where
  argIndex : Nat
  pNewPointerArg : Option Nat
  deriving DecidableEq, Repr

/-- ur_exp_command_buffer_update_value_arg_desc_t: a new by-value scalar
argument; pNewValueArg is the bytes of the value (none models a null
arg-value pointer). -/
structure ValueArgDesc where
  argIndex : Nat
  argSize : Nat
  pNewValueArg : Option (List Nat)
  deriving DecidableEq, Repr

/-- ur_exp_command_buffer_update_kernel_launch_desc_t. -/
structure UpdateKernelLaunchDesc where
  newWorkDim : Nat
  pNewGlobalWorkOffset : Option (List Nat)
  pNewLocalWorkSize : Option (List Nat)
  pNewGlobalWorkSize : Option (List Nat)
  pNewMemObjArgList : List MemObjArgDesc
  pNewPointerArgList : List PointerArgDesc
  pNewValueArgList : List ValueArgDesc
  deriving DecidableEq, Repr

/-- validateCommandDesc: the pre-mutation validation, checks in source
order.  The work-dimensionality, local-without-global and local-size
presence checks all sit under the Dim != 0 guard; the capability-bitmask
checks follow, with the global-offset driver-extension check interleaved
after the offset capability check. -/
def validateCommandDesc (command : CommandHandle) (cb : CommandBuffer)
    (desc : UpdateKernelLaunchDesc) : Except UrResult Unit :=
  let supportedFeatures := cb.device.mutableCommandFlags
  let dim := desc.newWorkDim
  if dim ≠ 0 ∧ dim ≠ command.workDim then
    .error .errorInvalidOperation
  else if dim ≠ 0 ∧ desc.pNewLocalWorkSize.isSome ∧
      desc.pNewGlobalWorkSize.isNone then
    .error .errorInvalidOperation
  else if dim ≠ 0 ∧
      xor desc.pNewLocalWorkSize.isNone (!command.userDefinedLocalSize) then
    .error .errorInvalidOperation
  else if desc.pNewGlobalWorkOffset.isSome ∧
      supportedFeatures &&& zeMutableCommandFlagGlobalOffset = 0 then
    .error .errorUnsupportedFeature
  else if desc.pNewGlobalWorkOffset.isSome ∧ dim > 0 ∧
      cb.platform.zeDriverGlobalOffsetExtensionFound = false then
    .error .errorInvalidValue
  else if desc.pNewLocalWorkSize.isSome ∧
      supportedFeatures &&& zeMutableCommandFlagGroupSize = 0 then
    .error .errorUnsupportedFeature
  else if desc.pNewGlobalWorkSize.isSome ∧
      supportedFeatures &&& zeMutableCommandFlagGroupCount = 0 then
    .error .errorUnsupportedFeature
  else if desc.pNewGlobalWorkSize.isSome ∧ desc.pNewLocalWorkSize.isNone ∧
      supportedFeatures &&& zeMutableCommandFlagGroupSize = 0 then
    .error .errorUnsupportedFeature
  else if (desc.pNewMemObjArgList ≠ [] ∨ desc.pNewPointerArgList ≠ [] ∨
      desc.pNewValueArgList ≠ []) ∧
      supportedFeatures &&& zeMutableCommandFlagKernelArguments = 0 then
    .error .errorUnsupportedFeature
  else
    .ok ()

/-- The payload behind a mutated kernel argument's pArgValue pointer. -/
inductive ArgPayload where
  | zeHandle (h : Nat)
  | hostPointer (p : Nat)
  | valueBytes (bs : List Nat)
  deriving DecidableEq, Repr

/-- A device-level mutation descriptor built by updateKernelCommand. -/
inductive MutationDesc where
  | globalOffset (commandId x y z : Nat)
  | groupSize (commandId x y z : Nat)
  | groupCount (commandId cx cy cz : Nat)
  | kernelArgument (commandId argIndex argSize : Nat)
      (pArgValue : Option ArgPayload)
  deriving DecidableEq, Repr

/-- sizeof(void *) on the modelled 64-bit host. -/
def sizeofVoidPointer : Nat := 8

/-- Translation of one new memory-object argument: validates the optional
access-mode flag (anything but read-write / write-only / read-only is an
invalid argument) and passes the ze handle, or a null argument value for a
null memory object. -/
def translateMemObjArg (commandId : Nat) (d : MemObjArgDesc) :
    Except UrResult MutationDesc :=
  let accessOk : Bool :=
    match d.pProperties with
    | some flags =>
        flags = urMemFlagReadWrite ∨ flags = urMemFlagWriteOnly ∨
          flags = urMemFlagReadOnly
    | none => true
  if accessOk then
    .ok (.kernelArgument commandId d.argIndex sizeofVoidPointer
          (d.hNewMemObjArg.map ArgPayload.zeHandle))
  else
    .error .errorInvalidArgument

/-- Translation of one new raw pointer argument. -/
def translatePointerArg (commandId : Nat) (d : PointerArgDesc) :
    MutationDesc :=
  .kernelArgument commandId d.argIndex sizeofVoidPointer
    (d.pNewPointerArg.map ArgPayload.hostPointer)

/-- Translation of one new by-value scalar argument: a value whose
declared size equals sizeof(void *) and whose bytes are exactly a null
pointer is passed as a null argument value; otherwise the bytes pass
through unchanged. -/
def translateValueArg (commandId : Nat) (d : ValueArgDesc) : MutationDesc :=
  let pArgValue : Option ArgPayload :=
    match d.pNewValueArg with
    | some bs =>
        if d.argSize = sizeofVoidPointer ∧ bs.all (· == 0) = true then
          none
        else
          some (.valueBytes bs)
    | none => none
  .kernelArgument commandId d.argIndex d.argSize pArgValue

/-- Translates the memory-object argument list (iterated in reverse in
the source), stopping at the first invalid access mode. -/
def translateMemObjArgs (commandId : Nat) :
    List MemObjArgDesc → Except UrResult (List MutationDesc)
  | [] => .ok []
  | d :: rest =>
      match translateMemObjArg commandId d with
      | .error e => .error e
      | .ok m =>
          match translateMemObjArgs commandId rest with
          | .error e => .error e
          | .ok ms => .ok (m :: ms)

/-- The global-offset mutation descriptor built when a new global work
offset is provided and the new work dimension is positive; missing
dimensions default to offset 0. -/
def updateOffsetDescs (cid dim : Nat) (gwo : Option (List Nat)) :
    List MutationDesc :=
  match gwo with
  | some offs =>
      if dim > 0 then
        [MutationDesc.globalOffset cid (offs.getD 0 0)
          (if dim ≥ 2 then offs.getD 1 0 else 0)
          (if dim = 3 then offs.getD 2 0 else 0)]
      else []
  | none => []

/-- The group-size mutation descriptor built when a new local work size
is provided and the new work dimension is positive; missing dimensions
default to size 1. -/
def updateSizeDescs (cid dim : Nat) (lws : Option (List Nat)) :
    List MutationDesc :=
  match lws with
  | some sizes =>
      if dim > 0 then
        [MutationDesc.groupSize cid (sizes.getD 0 0)
          (if dim ≥ 2 then sizes.getD 1 1 else 1)
          (if dim = 3 then sizes.getD 2 1 else 1)]
      else []
  | none => []

/-- The group-count mutation descriptors built when a new global work
size is provided and the new work dimension is positive; when no explicit
local size accompanies it, the recomputed group size is also appended. -/
def updateCountDescs (cid dim : Nat) (gws lws : Option (List Nat)) :
    Except UrResult (List MutationDesc) :=
  match gws with
  | some sizes =>
      if dim > 0 then
        match calculateKernelWorkDimensions dim sizes lws with
        | .error e => .error e
        | .ok (groupCounts, wg) =>
            let countDesc :=
              MutationDesc.groupCount cid (groupCounts.getD 0 1)
                (groupCounts.getD 1 1) (groupCounts.getD 2 1)
            if lws.isNone then
              .ok [countDesc,
                   MutationDesc.groupSize cid (wg.getD 0 1) (wg.getD 1 1)
                     (wg.getD 2 1)]
            else
              .ok [countDesc]
      else .ok []
  | none => .ok []

/-- updateKernelCommand: builds the chain of mutation descriptors (global
offset, explicit group size, group count with a recomputed group size when
no explicit local size accompanies a new global size, then the argument
rewrites, each list iterated in reverse) that is applied in one native
call.  Returns the descriptors in construction order. -/
def updateKernelCommand (command : CommandHandle) (cb : CommandBuffer)
    (desc : UpdateKernelLaunchDesc) : Except UrResult (List MutationDesc) :=
  match cb, updateCountDescs command.commandId desc.newWorkDim
      desc.pNewGlobalWorkSize desc.pNewLocalWorkSize with
  | _, .error e => .error e
  | _, .ok countDescs =>
      match translateMemObjArgs command.commandId
          desc.pNewMemObjArgList.reverse with
      | .error e => .error e
      | .ok memObjDescs =>
          .ok (updateOffsetDescs command.commandId desc.newWorkDim
                desc.pNewGlobalWorkOffset ++
               updateSizeDescs command.commandId desc.newWorkDim
                desc.pNewLocalWorkSize ++
               countDescs ++ memObjDescs ++
               desc.pNewPointerArgList.reverse.map
                 (translatePointerArg command.commandId) ++
               desc.pNewValueArgList.reverse.map
                 (translateValueArg command.commandId))

/-- urCommandBufferUpdateKernelLaunchExp: entry-point checks (kernel
handle, work dimension bound, buffer updatable and finalized) followed by
validateCommandDesc; only then is the mutation built and applied, so any
validation failure leaves the command untouched.  Returns the mutation
descriptors applied on success. -/
def urCommandBufferUpdateKernelLaunchExp (command : CommandHandle)
    (cb : CommandBuffer) (desc : UpdateKernelLaunchDesc) :
    Except UrResult (List MutationDesc) :=
  if command.kernel.isNone then
    .error .errorInvalidNullHandle
  else if ¬desc.newWorkDim ≤ 3 then
    .error .errorInvalidWorkDimension
  else if !cb.isUpdatable then
    .error .errorInvalidOperation
  else if !cb.isFinalized then
    .error .errorInvalidOperation
  else
    match validateCommandDesc command cb desc with
    | .error e => .error e
    | .ok _ => updateKernelCommand command cb desc

/-- urCommandBufferAppendUSMMemcpyExp: prefers the copy engine when either
side is not device-resident, except on DG2 with a shared-pointer side, and
always when the copy-engine-for-device-to-device override is set; the
pointer-placement queries and the override are inputs here. -/
def urCommandBufferAppendUSMMemcpyExp (cb : CommandBuffer)
    (srcIsDevicePointer dstIsDevicePointer isDG2 srcOrDstIsSharedPointer
      useCopyEngineForD2DCopy : Bool) (waitList : List Nat) :
    Except UrResult (CommandBuffer × Option Nat) :=
  let preferCopyEngine := !srcIsDevicePointer || !dstIsDevicePointer
  let preferCopyEngine :=
    if isDG2 && srcOrDstIsSharedPointer then false else preferCopyEngine
  let preferCopyEngine := preferCopyEngine || useCopyEngineForD2DCopy
  enqueueCommandBufferMemCopyHelper cb preferCopyEngine waitList

/-- urCommandBufferAppendMemBufferCopyExp: prefers the copy engine when
either buffer lives on the host, or when the device-to-device override is
set. -/
def urCommandBufferAppendMemBufferCopyExp (cb : CommandBuffer)
    (srcOnHost dstOnHost useCopyEngineForD2DCopy : Bool)
    (waitList : List Nat) : Except UrResult (CommandBuffer × Option Nat) :=
  let preferCopyEngine := (srcOnHost || dstOnHost) || useCopyEngineForD2DCopy
  enqueueCommandBufferMemCopyHelper cb preferCopyEngine waitList

/-- urCommandBufferAppendMemBufferFillExp: resolves the buffer handle and
delegates to the fill helper. -/
def urCommandBufferAppendMemBufferFillExp (cb : CommandBuffer)
    (patternSize size : Nat) (waitList : List Nat)
    (envUseCopyEngineForFill : Bool) :
    Except UrResult (CommandBuffer × Option Nat) :=
  enqueueCommandBufferFillHelper cb patternSize size waitList
    envUseCopyEngineForFill

/-- urCommandBufferAppendUSMFillExp: delegates to the fill helper. -/
def urCommandBufferAppendUSMFillExp (cb : CommandBuffer)
    (patternSize size : Nat) (waitList : List Nat)
    (envUseCopyEngineForFill : Bool) :
    Except UrResult (CommandBuffer × Option Nat) :=
  enqueueCommandBufferFillHelper cb patternSize size waitList
    envUseCopyEngineForFill

/-- One append operation, with the parameters that reach the shared
helpers (the per-entry-point engine preference computations are the thin
wrappers above). -/
inductive AppendOp where
  | kernelLaunch (kernel : Kernel) (workDim : Nat)
      (globalWorkOffset : Option (List Nat)) (globalWorkSize : List Nat)
      (localWorkSize : Option (List Nat)) (waitList : List Nat)
      (wantCommand : Bool)
  | memCopy (preferCopyEngine : Bool) (waitList : List Nat)
  | memCopyRect (preferCopyEngine : Bool) (waitList : List Nat)
  | fill (patternSize size : Nat) (waitList : List Nat)
      (envUseCopyEngineForFill : Bool)
  | usmPrefetch (waitList : List Nat)
  | usmAdvise (waitList : List Nat)
  deriving DecidableEq, Repr

/-- Dispatches one append operation, returning the updated buffer and the
sync point handed back to the caller. -/
def runAppend (cb : CommandBuffer) :
    AppendOp → Except UrResult (CommandBuffer × Option Nat)
  | .kernelLaunch kernel workDim gwo gws lws waitList wantCommand =>
      match urCommandBufferAppendKernelLaunchExp cb kernel workDim gwo gws
          lws waitList wantCommand with
      | .error e => .error e
      | .ok (cb1, sp, _) => .ok (cb1, sp)
  | .memCopy preferCopyEngine waitList =>
      enqueueCommandBufferMemCopyHelper cb preferCopyEngine waitList
  | .memCopyRect preferCopyEngine waitList =>
      enqueueCommandBufferMemCopyRectHelper cb preferCopyEngine waitList
  | .fill patternSize size waitList env =>
      enqueueCommandBufferFillHelper cb patternSize size waitList env
  | .usmPrefetch waitList => urCommandBufferAppendUSMPrefetchExp cb waitList
  | .usmAdvise waitList => urCommandBufferAppendUSMAdviseExp cb waitList

/-- Runs a sequence of append operations, collecting the sync points
returned to the caller. -/
def runAppends (cb : CommandBuffer) :
    List AppendOp → Except UrResult (CommandBuffer × List (Option Nat))
  | [] => .ok (cb, [])
  | op :: rest =>
      match runAppend cb op with
      | .error e => .error e
      | .ok (cb1, sp) =>
          match runAppends cb1 rest with
          | .error e => .error e
          | .ok (cb2, sps) => .ok (cb2, sp :: sps)

/-- Extracts a successful result, with a fallback for the error case. -/
def exceptGetD {α : Type} (x : Except UrResult α) (d : α) : α :=
  match x with
  | .ok a => a
  | .error _ => d

/-- A sample device: main copy engine present, both engines accept fill
patterns up to 16 bytes, all four mutable-command capability bits set. -/
def sampleDevice : Device := ⟨true, 16, 16, 15⟩

/-- A sample device without a main copy engine. -/
def deviceNoCopy : Device := ⟨false, 0, 16, 15⟩

/-- A sample platform with every modelled capability present. -/
def samplePlatform : Platform := ⟨true, true, true⟩

/-- A sample platform whose driver lacks the global-offset extension. -/
def platformNoOffset : Platform := ⟨true, false, true⟩

/-- A sample platform whose driver predates in-order command lists. -/
def platformOldDriver : Platform := ⟨true, true, false⟩

/-- A sample platform without the mutable-command-list extension. -/
def platformNoMutable : Platform := ⟨false, true, true⟩

/-- A sample kernel with a backing program. -/
def sampleKernel : Kernel := ⟨7, true⟩

/-- A plain creation descriptor. -/
def baseDesc : CommandBufferDesc := ⟨false, false, false⟩

/-- A creation descriptor requesting an in-order buffer. -/
def inOrderDesc : CommandBufferDesc := ⟨false, true, false⟩

/-- A creation descriptor requesting an updatable buffer. -/
def updatableDesc : CommandBufferDesc := ⟨true, false, false⟩

/-- Fallback buffer value for extracting successful creation results. -/
def fallbackBuffer : CommandBuffer :=
  { device := sampleDevice
    platform := samplePlatform
    isInOrderCmdList := false
    isUpdatable := false
    isProfilingEnabled := false
    isFinalized := false
    hasCopyList := false
    mCopyCommandListEmpty := true
    syncPoints := []
    nextSyncPoint := 0
    zeEventsList := []
    zeComputeCommandList := []
    zeCopyCommandList := []
    zeCommandListResetEvents := []
    kernelsList := []
    signalEvent := 0
    waitEvent := 1
    allResetEvent := 2
    zeFencesMap := []
    zeActiveFence := none
    nextEventId := 3
    nextCommandId := 0
    nextFenceId := 0 }

/-- A freshly created plain (non-in-order, non-updatable) buffer on the
sample device. -/
def cbBase : CommandBuffer :=
  exceptGetD (urCommandBufferCreateExp samplePlatform sampleDevice
    (some baseDesc)) fallbackBuffer

/-- cbBase after finalization. -/
def cbBaseFinalized : CommandBuffer :=
  exceptGetD (urCommandBufferFinalizeExp cbBase) fallbackBuffer

/-- A freshly created in-order buffer on the sample device. -/
def cbInOrder : CommandBuffer :=
  exceptGetD (urCommandBufferCreateExp samplePlatform sampleDevice
    (some inOrderDesc)) fallbackBuffer

/-- A freshly created updatable buffer on the sample device. -/
def cbUpdatable : CommandBuffer :=
  exceptGetD (urCommandBufferCreateExp samplePlatform sampleDevice
    (some updatableDesc)) fallbackBuffer

/-- cbUpdatable after finalization. -/
def cbUpdatableFinalized : CommandBuffer :=
  exceptGetD (urCommandBufferFinalizeExp cbUpdatable) fallbackBuffer

/-- A freshly created plain buffer on a platform without the global-offset
extension. -/
def cbNoOffset : CommandBuffer :=
  exceptGetD (urCommandBufferCreateExp platformNoOffset sampleDevice
    (some baseDesc)) fallbackBuffer

/-- A sample mutable kernel-launch command handle of dimensionality 2
whose creation did not specify a local work size. -/
def sampleCommand : CommandHandle := ⟨0, 2, false, some sampleKernel⟩

/-- A sample sequence of in-order append operations. -/
def inOrderOps : List AppendOp :=
  [.memCopy true [], .usmPrefetch [], .usmAdvise [],
   .fill 4 64 [] false,
   .kernelLaunch sampleKernel 1 none [8] none [] false]

/-- The result of running inOrderOps on cbInOrder. -/
def inOrderRun : CommandBuffer × List (Option Nat) :=
  exceptGetD (runAppends cbInOrder inOrderOps) (cbInOrder, [])

/-- A sample sequence of append operations on a non-in-order buffer, one
of which (the buffer write modelled by memCopy with the copy engine
preferred) selects the copy engine. -/
def mixedOps : List AppendOp :=
  [.kernelLaunch sampleKernel 1 none [8] none [] false,
   .memCopy true [0],
   .usmAdvise [1]]

/-- The result of running mixedOps on cbBase. -/
def mixedRun : CommandBuffer × List (Option Nat) :=
  exceptGetD (runAppends cbBase mixedOps) (cbBase, [])

/-- A sample queue. -/
def sampleQueue : Queue := ⟨100, 200⟩

/-- Whether an Except result is a success. -/
def exceptIsOk {α : Type} : Except UrResult α → Bool
  | .ok _ => true
  | .error _ => false

/-- The result of a pattern-size-4 fill on cbBase with the copy-engine
fill override unset (both environment variables absent). -/
def fillRunDefaultEnv : CommandBuffer × Option Nat :=
  exceptGetD (enqueueCommandBufferFillHelper cbBase 4 64 [] false)
    (cbBase, none)

/-- The result of a pattern-size-8 fill on cbBase with the copy-engine
fill override enabled. -/
def fillRunEnv : CommandBuffer × Option Nat :=
  exceptGetD (enqueueCommandBufferFillHelper cbBase 8 64 [] true)
    (cbBase, none)

/-- The sync-point result of resolving an empty wait list on cbBase. -/
def syncCbBase : SyncPointResult :=
  exceptGetD (createSyncPointAndGetZeEvents cbBase [] true)
    ⟨cbBase, none, [], none⟩

/-- The result of a memory-copy append on the already finalized cbBase. -/
def memCopyAfterFinalize : CommandBuffer × Option Nat :=
  exceptGetD (runAppend cbBaseFinalized (.memCopy false []))
    (cbBaseFinalized, none)

/-- An update descriptor with zero newWorkDim carrying a new local work
size but no new global work size. -/
def descLocalNoGlobalDim0 : UpdateKernelLaunchDesc :=
  ⟨0, none, some [4], none, [], [], []⟩

/-- A by-value argument whose bytes are exactly a 64-bit null pointer. -/
def valueArgNull : ValueArgDesc := ⟨0, 8, some [0, 0, 0, 0, 0, 0, 0, 0]⟩

/-- A by-value argument of non-pointer size. -/
def valueArgPlain : ValueArgDesc := ⟨1, 4, some [1, 2, 3, 4]⟩

/-- An update descriptor rewriting the two sample by-value arguments. -/
def descValueArgs : UpdateKernelLaunchDesc :=
  ⟨0, none, none, none, [], [], [valueArgNull, valueArgPlain]⟩

/-- The mutation descriptors produced for descValueArgs. -/
def updateValueRun : List MutationDesc :=
  exceptGetD (updateKernelCommand sampleCommand cbUpdatableFinalized
    descValueArgs) []

/-- A buffer created with isInOrder requested on the old-driver
platform. -/
def cbOldDriver : CommandBuffer :=
  exceptGetD (urCommandBufferCreateExp platformOldDriver sampleDevice
    (some inOrderDesc)) fallbackBuffer

/-- The result of a memory-copy append on cbOldDriver. -/
def oldDriverCopyRun : CommandBuffer × Option Nat :=
  exceptGetD (runAppend cbOldDriver (.memCopy false [])) (cbOldDriver, none)

/-- Helper: an unknown sync point is the only error source of wait-list
resolution, and it is reported as invalid value. -/
theorem getEventsFromSyncPoints_error_code (cb : CommandBuffer) :
    ∀ (ids : List Nat) (e : UrResult),
      getEventsFromSyncPoints cb ids = .error e → e = .errorInvalidValue := by
  intro ids
  induction ids with
  | nil => intro e h; simp [getEventsFromSyncPoints] at h
  | cons a rest ih =>
      intro e h
      simp only [getEventsFromSyncPoints] at h
      cases hla : lookupSyncPoint cb.syncPoints a with
      | none => rw [hla] at h; injection h with h; exact h.symm
      | some ev =>
          rw [hla] at h
          cases hr : getEventsFromSyncPoints cb rest with
          | ok evs => rw [hr] at h; cases h
          | error e2 =>
              rw [hr] at h
              injection h with h
              exact h ▸ ih e2 hr

/-- Helper: sync-point creation can only fail with invalid value (from
wait-list resolution). -/
theorem createSyncPoint_error_code (cb : CommandBuffer) (w : List Nat)
    (hv : Bool) (e : UrResult)
    (h : createSyncPointAndGetZeEvents cb w hv = .error e) :
    e = .errorInvalidValue := by
  unfold createSyncPointAndGetZeEvents at h
  split at h
  · cases h
  · cases hg : getEventsFromSyncPoints cb w with
    | ok evs => rw [hg] at h; cases h
    | error e2 =>
        rw [hg] at h
        injection h with h
        exact h ▸ getEventsFromSyncPoints_error_code cb w e2 hg

/-- Helper: on an in-order buffer, sync-point creation is a no-op. -/
theorem createSyncPoint_inOrder (cb : CommandBuffer) (w : List Nat)
    (hv : Bool) (hIn : cb.isInOrderCmdList = true) :
    createSyncPointAndGetZeEvents cb w hv = .ok ⟨cb, none, [], none⟩ := by
  unfold createSyncPointAndGetZeEvents
  rw [hIn]
  simp

/-- Helper: sync-point creation touches only the registry, the counter,
the tracked-events list and the event allocator. -/
theorem createSyncPoint_fields (cb : CommandBuffer) (w : List Nat)
    (hv : Bool) (r : SyncPointResult)
    (h : createSyncPointAndGetZeEvents cb w hv = .ok r) :
    r.cb.mCopyCommandListEmpty = cb.mCopyCommandListEmpty ∧
      r.cb.zeCopyCommandList = cb.zeCopyCommandList ∧
      r.cb.zeComputeCommandList = cb.zeComputeCommandList ∧
      r.cb.isInOrderCmdList = cb.isInOrderCmdList ∧
      r.cb.hasCopyList = cb.hasCopyList ∧
      r.cb.device = cb.device := by
  unfold createSyncPointAndGetZeEvents at h
  split at h
  · injection h with h
    subst h
    simp
  · cases hg : getEventsFromSyncPoints cb w with
    | error e => rw [hg] at h; cases h
    | ok evs =>
        rw [hg] at h
        injection h with h
        subst h
        simp [CommandBuffer.registerSyncPoint]

/-- C6: resolving a wait list of sync points returns the completion
events in the order of the requested ids when every id is registered in
the buffer's sync-point registry, and fails with invalid value when some
requested id was never registered. -/
theorem resolve_syncPoints_order_and_unknown_id (cb : CommandBuffer)
    (ids : List Nat) :
    ((∀ sp ∈ ids, (lookupSyncPoint cb.syncPoints sp).isSome = true) →
      getEventsFromSyncPoints cb ids =
        .ok (ids.map fun sp => (lookupSyncPoint cb.syncPoints sp).getD 0)) ∧
    ((∃ sp ∈ ids, lookupSyncPoint cb.syncPoints sp = none) →
      getEventsFromSyncPoints cb ids = .error .errorInvalidValue) := by
  induction ids with
  | nil =>
      refine ⟨fun _ => rfl, ?_⟩
      rintro ⟨sp, hsp, _⟩
      exact absurd hsp (List.not_mem_nil sp)
  | cons a rest ih =>
      constructor
      · intro h
        have ha := h a (List.mem_cons_self a rest)
        obtain ⟨ev, hev⟩ := Option.isSome_iff_exists.mp ha
        have hrest := ih.1 (fun sp hsp => h sp (List.mem_cons_of_mem a hsp))
        simp [getEventsFromSyncPoints, hev, hrest]
      · rintro ⟨sp, hsp, hnone⟩
        rcases List.mem_cons.mp hsp with h1 | h2
        · subst h1
          simp [getEventsFromSyncPoints, hnone]
        · cases hla : lookupSyncPoint cb.syncPoints a with
          | none => simp [getEventsFromSyncPoints, hla]
          | some ev =>
              have hrest := ih.2 ⟨sp, h2, hnone⟩
              simp [getEventsFromSyncPoints, hla, hrest]

/-- Witness for C6 at a concrete registry: ids [2, 0] resolve, in order,
to events [5, 3] on the buffer produced by mixedRun, and id 9 is
unknown there and yields invalid value. -/
theorem resolve_syncPoints_order_and_unknown_id_witness :
    getEventsFromSyncPoints mixedRun.1 [2, 0] = .ok [5, 3] ∧
      getEventsFromSyncPoints mixedRun.1 [9] = .error .errorInvalidValue := by
  constructor
  · have h := (resolve_syncPoints_order_and_unknown_id mixedRun.1 [2, 0]).1
      (by decide)
    exact h.trans (by decide)
  · exact (resolve_syncPoints_order_and_unknown_id mixedRun.1 [9]).2
      ⟨9, by decide, by decide⟩

/-- C9: creating a command buffer whose descriptor requests isUpdatable
on a platform without the mutable-command-list extension fails with
unsupported feature (so no buffer is produced). -/
theorem create_updatable_requires_mutable_ext (platform : Platform)
    (device : Device) (desc : CommandBufferDesc)
    (hU : desc.isUpdatable = true)
    (hS : platform.zeMutableCmdListExtSupported = false) :
    urCommandBufferCreateExp platform device (some desc) =
      .error .errorUnsupportedFeature := by
  unfold urCommandBufferCreateExp
  simp [hU, hS]

/-- Witness for C9 on the sample platform lacking the extension. -/
theorem create_updatable_requires_mutable_ext_witness :
    urCommandBufferCreateExp platformNoMutable sampleDevice
      (some updatableDesc) = .error .errorUnsupportedFeature :=
  create_updatable_requires_mutable_ext platformNoMutable sampleDevice
    updatableDesc (by decide) (by decide)

/-- C7 (amended): a kernel-launch append that supplies a global work
offset on a platform whose driver lacks the global-offset extension fails
with invalid value (the code returns invalid value here, not unsupported
feature). -/
theorem kernelLaunch_globalOffset_missing_extension_invalid_value
    (cb : CommandBuffer) (kernel : Kernel) (workDim : Nat)
    (gwo : List Nat) (gws : List Nat) (lws : Option (List Nat))
    (waitList : List Nat) (wantCommand : Bool)
    (hProg : kernel.hasProgram = true)
    (hExt : cb.platform.zeDriverGlobalOffsetExtensionFound = false) :
    urCommandBufferAppendKernelLaunchExp cb kernel workDim (some gwo) gws
      lws waitList wantCommand = .error .errorInvalidValue := by
  unfold urCommandBufferAppendKernelLaunchExp
  simp [hProg, setKernelGlobalOffset, hExt]

/-- Witness for C7 on the platform lacking the extension. -/
theorem kernelLaunch_globalOffset_missing_extension_witness :
    urCommandBufferAppendKernelLaunchExp cbNoOffset sampleKernel 1
      (some [0, 0, 0]) [8] none [] false = .error .errorInvalidValue :=
  kernelLaunch_globalOffset_missing_extension_invalid_value cbNoOffset
    sampleKernel 1 [0, 0, 0] [8] none [] false (by decide) (by decide)

/-- Counterexample to C7 as stated: at this concrete input the call
fails, but with invalid value rather than the claimed unsupported
feature. -/
theorem kernelLaunch_globalOffset_error_code_counterexample :
    urCommandBufferAppendKernelLaunchExp cbNoOffset sampleKernel 1
        (some [0, 0, 0]) [8] none [] false ≠
      .error .errorUnsupportedFeature ∧
    urCommandBufferAppendKernelLaunchExp cbNoOffset sampleKernel 1
        (some [0, 0, 0]) [8] none [] false = .error .errorInvalidValue := by
  constructor
  · decide
  · decide

/-- C8: during a kernel-launch update, a by-value scalar argument whose
declared size equals sizeof(void *) and whose bytes are exactly a null
pointer is applied with a null argument value (as a null memory-object
argument would be), while a by-value argument of any other size, or whose
bytes are not all zero, is applied with its bytes unchanged. -/
theorem update_valueArg_null_pointer_coercion (command : CommandHandle)
    (cb : CommandBuffer) (desc : UpdateKernelLaunchDesc)
    (ms : List MutationDesc) (d : ValueArgDesc)
    (h : updateKernelCommand command cb desc = .ok ms)
    (hd : d ∈ desc.pNewValueArgList) :
    (∀ bs, d.pNewValueArg = some bs → d.argSize = sizeofVoidPointer →
      bs.all (· == 0) = true →
      MutationDesc.kernelArgument command.commandId d.argIndex d.argSize
        none ∈ ms) ∧
    (∀ bs, d.pNewValueArg = some bs →
      (d.argSize ≠ sizeofVoidPointer ∨ bs.all (· == 0) = false) →
      MutationDesc.kernelArgument command.commandId d.argIndex d.argSize
        (some (.valueBytes bs)) ∈ ms) := by
  have hmem : translateValueArg command.commandId d ∈ ms := by
    unfold updateKernelCommand at h
    split at h
    · cases h
    · split at h
      · cases h
      · injection h with h
        subst h
        have hv : translateValueArg command.commandId d ∈
            desc.pNewValueArgList.reverse.map
              (translateValueArg command.commandId) :=
          List.mem_map_of_mem _ (List.mem_reverse.mpr hd)
        simp only [List.mem_append]
        exact Or.inr hv
  constructor
  · intro bs hbs hsize hall
    have ht : translateValueArg command.commandId d =
        MutationDesc.kernelArgument command.commandId d.argIndex d.argSize
          none := by
      simp [translateValueArg, hbs, hsize, hall]
    rwa [ht] at hmem
  · intro bs hbs hne
    have ht : translateValueArg command.commandId d =
        MutationDesc.kernelArgument command.commandId d.argIndex d.argSize
          (some (.valueBytes bs)) := by
      rcases hne with hne | hne
      · simp [translateValueArg, hbs, hne]
      · simp [translateValueArg, hbs, hne]
    rwa [ht] at hmem

/-- Witness for C8: on the sample update, the 8-byte all-zero argument is
applied as a null argument value and the 4-byte argument passes through
unchanged. -/
theorem update_valueArg_null_pointer_coercion_witness :
    MutationDesc.kernelArgument sampleCommand.commandId valueArgNull.argIndex
        valueArgNull.argSize none ∈ updateValueRun ∧
      MutationDesc.kernelArgument sampleCommand.commandId
        valueArgPlain.argIndex valueArgPlain.argSize
        (some (.valueBytes [1, 2, 3, 4])) ∈ updateValueRun := by
  constructor
  · exact (update_valueArg_null_pointer_coercion sampleCommand
      cbUpdatableFinalized descValueArgs updateValueRun valueArgNull
      (by decide) (by decide)).1 [0, 0, 0, 0, 0, 0, 0, 0] (by decide)
      (by decide) (by decide)
  · exact (update_valueArg_null_pointer_coercion sampleCommand
      cbUpdatableFinalized descValueArgs updateValueRun valueArgPlain
      (by decide) (by decide)).2 [1, 2, 3, 4] (by decide)
      (Or.inl (by decide))

/-- C5 (amended): updateKernelLaunch validates before mutating.  With a
kernel-backed command and an in-range work dimension: a non-updatable
buffer, then a non-finalized buffer, fail with invalid operation; with a
nonzero new work dimension, a dimension mismatch, a new local size
without a new global size, and a local-size presence toggle each fail
with invalid operation — the latter two checks apply only when the new
work dimension is nonzero; once those dimension checks pass and the
interleaved global-offset driver-extension check cannot fire, any
requested field whose capability bit is absent from the device's
mutable-command bitmask fails with unsupported feature.  Every such
failure occurs before updateKernelCommand builds or applies any mutation
descriptor, so the command's prior configuration stays intact. -/
theorem updateKernelLaunch_validation_order (command : CommandHandle)
    (cb : CommandBuffer) (desc : UpdateKernelLaunchDesc)
    (hK : command.kernel.isSome = true) (hDim : desc.newWorkDim ≤ 3) :
    (cb.isUpdatable = false →
      urCommandBufferUpdateKernelLaunchExp command cb desc =
        .error .errorInvalidOperation) ∧
    (cb.isUpdatable = true → cb.isFinalized = false →
      urCommandBufferUpdateKernelLaunchExp command cb desc =
        .error .errorInvalidOperation) ∧
    (cb.isUpdatable = true → cb.isFinalized = true →
      desc.newWorkDim ≠ 0 → desc.newWorkDim ≠ command.workDim →
      urCommandBufferUpdateKernelLaunchExp command cb desc =
        .error .errorInvalidOperation) ∧
    (cb.isUpdatable = true → cb.isFinalized = true →
      desc.newWorkDim ≠ 0 → desc.pNewLocalWorkSize.isSome = true →
      desc.pNewGlobalWorkSize.isNone = true →
      urCommandBufferUpdateKernelLaunchExp command cb desc =
        .error .errorInvalidOperation) ∧
    (cb.isUpdatable = true → cb.isFinalized = true →
      desc.newWorkDim ≠ 0 → desc.newWorkDim = command.workDim →
      ¬(desc.pNewLocalWorkSize.isSome = true ∧
        desc.pNewGlobalWorkSize.isNone = true) →
      xor desc.pNewLocalWorkSize.isNone (!command.userDefinedLocalSize) =
        true →
      urCommandBufferUpdateKernelLaunchExp command cb desc =
        .error .errorInvalidOperation) ∧
    (cb.isUpdatable = true → cb.isFinalized = true →
      (desc.newWorkDim = 0 ∨
        (desc.newWorkDim = command.workDim ∧
          ¬(desc.pNewLocalWorkSize.isSome = true ∧
            desc.pNewGlobalWorkSize.isNone = true) ∧
          xor desc.pNewLocalWorkSize.isNone (!command.userDefinedLocalSize) =
            false)) →
      (desc.pNewGlobalWorkOffset.isSome = false ∨ ¬desc.newWorkDim > 0 ∨
        cb.platform.zeDriverGlobalOffsetExtensionFound = true) →
      ((desc.pNewGlobalWorkOffset.isSome = true ∧
          cb.device.mutableCommandFlags &&&
            zeMutableCommandFlagGlobalOffset = 0) ∨
       (desc.pNewLocalWorkSize.isSome = true ∧
          cb.device.mutableCommandFlags &&&
            zeMutableCommandFlagGroupSize = 0) ∨
       (desc.pNewGlobalWorkSize.isSome = true ∧
          cb.device.mutableCommandFlags &&&
            zeMutableCommandFlagGroupCount = 0) ∨
       (desc.pNewGlobalWorkSize.isSome = true ∧
          desc.pNewLocalWorkSize.isNone = true ∧
          cb.device.mutableCommandFlags &&&
            zeMutableCommandFlagGroupSize = 0) ∨
       ((desc.pNewMemObjArgList ≠ [] ∨ desc.pNewPointerArgList ≠ [] ∨
          desc.pNewValueArgList ≠ []) ∧
          cb.device.mutableCommandFlags &&&
            zeMutableCommandFlagKernelArguments = 0)) →
      urCommandBufferUpdateKernelLaunchExp command cb desc =
        .error .errorUnsupportedFeature) := by
  have hkn : command.kernel.isNone = false := by
    cases hc : command.kernel with
    | none => rw [hc] at hK; cases hK
    | some k => rfl
  refine ⟨?_, ?_, ?_, ?_, ?_, ?_⟩
  · intro hU
    simp [urCommandBufferUpdateKernelLaunchExp, hkn, hDim, hU]
  · intro hU hF
    simp [urCommandBufferUpdateKernelLaunchExp, hkn, hDim, hU, hF]
  · intro hU hF h3 h4
    have hvc : validateCommandDesc command cb desc =
        .error .errorInvalidOperation := by
      simp [validateCommandDesc, h3, h4]
    simp [urCommandBufferUpdateKernelLaunchExp, hkn, hDim, hU, hF, hvc]
  · intro hU hF h3 h5 h6
    have hvc : validateCommandDesc command cb desc =
        .error .errorInvalidOperation := by
      unfold validateCommandDesc
      dsimp only
      split
      · rfl
      · rw [if_pos ⟨h3, h5, h6⟩]
    simp [urCommandBufferUpdateKernelLaunchExp, hkn, hDim, hU, hF, hvc]
  · intro hU hF h3 h4 h5 h6
    have hvc : validateCommandDesc command cb desc =
        .error .errorInvalidOperation := by
      unfold validateCommandDesc
      dsimp only
      rw [if_neg (by rintro ⟨_, hne⟩; exact hne h4)]
      rw [if_neg (by rintro ⟨_, ha, hb⟩; exact h5 ⟨ha, hb⟩)]
      rw [if_pos ⟨h3, h6⟩]
    simp [urCommandBufferUpdateKernelLaunchExp, hkn, hDim, hU, hF, hvc]
  · intro hU hF hDimPass hExtOk hCap
    have hvc : validateCommandDesc command cb desc =
        .error .errorUnsupportedFeature := by
      unfold validateCommandDesc
      dsimp only
      split
      · next hcond =>
          exfalso
          rcases hDimPass with h0 | ⟨heq, _, _⟩
          · exact hcond.1 h0
          · exact hcond.2 heq
      · next hnc1 =>
          split
          · next hcond =>
              exfalso
              rcases hDimPass with h0 | ⟨_, hne, _⟩
              · exact hcond.1 h0
              · exact hne ⟨hcond.2.1, hcond.2.2⟩
          · next hnc2 =>
              split
              · next hcond =>
                  exfalso
                  rcases hDimPass with h0 | ⟨_, _, hxor⟩
                  · exact hcond.1 h0
                  · rw [hxor] at hcond; cases hcond.2
              · next hnc3 =>
                  split
                  · rfl
                  · next hnc4 =>
                      split
                      · next hcond =>
                          exfalso
                          rcases hExtOk with h | h | h
                          · rw [h] at hcond; cases hcond.1
                          · exact h hcond.2.1
                          · rw [h] at hcond; cases hcond.2.2
                      · next hnc5 =>
                          split
                          · rfl
                          · next hnc6 =>
                              split
                              · rfl
                              · next hnc7 =>
                                  split
                                  · rfl
                                  · next hnc8 =>
                                      split
                                      · rfl
                                      · next hnc9 =>
                                          exfalso
                                          rcases hCap with h | h | h | h | h
                                          · exact hnc4 h
                                          · exact hnc6 h
                                          · exact hnc7 h
                                          · exact hnc8 h
                                          · exact hnc9 h
    simp [urCommandBufferUpdateKernelLaunchExp, hkn, hDim, hU, hF, hvc]

/-- Witness for C5: updating a command of a non-updatable buffer fails
with invalid operation. -/
theorem updateKernelLaunch_validation_order_witness :
    urCommandBufferUpdateKernelLaunchExp sampleCommand cbBase
      descLocalNoGlobalDim0 = .error .errorInvalidOperation :=
  (updateKernelLaunch_validation_order sampleCommand cbBase
    descLocalNoGlobalDim0 (by decide) (by decide)).1 (by decide)

/-- Counterexample to C5 as stated: with newWorkDim zero, a new local
work size without a new global work size is accepted (and the presence
toggle against the original local size is not rejected either) — the
update succeeds with an empty mutation list instead of failing with
invalid operation. -/
theorem update_localSize_without_global_dim0_counterexample :
    urCommandBufferUpdateKernelLaunchExp sampleCommand cbUpdatableFinalized
        descLocalNoGlobalDim0 = .ok [] ∧
      urCommandBufferUpdateKernelLaunchExp sampleCommand cbUpdatableFinalized
        descLocalNoGlobalDim0 ≠ .error .errorInvalidOperation := by
  exact ⟨by decide, by decide⟩

/-- Helper: the kernel-launch bookkeeping step only touches the kernel
list and the command-id allocator. -/
theorem kernelLaunchPrepare_fields (cb : CommandBuffer) (k : Kernel)
    (wd : Nat) (lws : Option (List Nat)) (wc : Bool) :
    (kernelLaunchPrepare cb k wd lws wc).1.syncPoints = cb.syncPoints ∧
    (kernelLaunchPrepare cb k wd lws wc).1.nextSyncPoint = cb.nextSyncPoint ∧
    (kernelLaunchPrepare cb k wd lws wc).1.isInOrderCmdList =
      cb.isInOrderCmdList ∧
    (kernelLaunchPrepare cb k wd lws wc).1.mCopyCommandListEmpty =
      cb.mCopyCommandListEmpty ∧
    (kernelLaunchPrepare cb k wd lws wc).1.zeCopyCommandList =
      cb.zeCopyCommandList ∧
    (kernelLaunchPrepare cb k wd lws wc).1.zeComputeCommandList =
      cb.zeComputeCommandList ∧
    (kernelLaunchPrepare cb k wd lws wc).1.hasCopyList = cb.hasCopyList ∧
    (kernelLaunchPrepare cb k wd lws wc).1.device = cb.device := by
  unfold kernelLaunchPrepare createCommandHandle
  dsimp only
  split <;> simp

/-- Helper: on an in-order buffer, a single append leaves the sync-point
registry and counter untouched, hands back no sync point, and keeps the
buffer in order. -/
theorem runAppend_inOrder_step (cb : CommandBuffer) (op : AppendOp)
    (cb' : CommandBuffer) (sp : Option Nat)
    (hIn : cb.isInOrderCmdList = true)
    (h : runAppend cb op = .ok (cb', sp)) :
    cb'.syncPoints = cb.syncPoints ∧ cb'.nextSyncPoint = cb.nextSyncPoint ∧
      sp = none ∧ cb'.isInOrderCmdList = true := by
  cases op with
  | kernelLaunch k wd gwo gws lws w wc =>
      simp only [runAppend] at h
      cases happ : urCommandBufferAppendKernelLaunchExp cb k wd gwo gws lws
          w wc with
      | error e => rw [happ] at h; simp at h
      | ok t =>
          rw [happ] at h
          obtain ⟨cbk, spk, cmdk⟩ := t
          simp only [Except.ok.injEq, Prod.mk.injEq] at h
          obtain ⟨h1, h2⟩ := h
          subst h1
          subst h2
          have hprep := kernelLaunchPrepare_fields cb k wd lws wc
          unfold urCommandBufferAppendKernelLaunchExp at happ
          split at happ
          · simp at happ
          · split at happ
            · simp at happ
            · split at happ
              · simp at happ
              · rw [createSyncPoint_inOrder _ w false
                  (hprep.2.2.1.trans hIn)] at happ
                simp only [Except.ok.injEq, Prod.mk.injEq] at happ
                obtain ⟨hk1, hk2, _⟩ := happ
                subst hk1
                subst hk2
                refine ⟨?_, ?_, rfl, ?_⟩
                · simpa [CommandBuffer.appendCompute] using hprep.1
                · simpa [CommandBuffer.appendCompute] using hprep.2.1
                · simpa [CommandBuffer.appendCompute] using
                    hprep.2.2.1.trans hIn
  | memCopy p w =>
      simp only [runAppend, enqueueCommandBufferMemCopyHelper] at h
      rw [createSyncPoint_inOrder cb w false hIn] at h
      simp only [CommandBuffer.chooseCommandList, hIn, Bool.not_true,
        Bool.and_false, Bool.false_eq_true, if_false,
        CommandBuffer.appendNative, Except.ok.injEq, Prod.mk.injEq] at h
      obtain ⟨h1, h2⟩ := h
      subst h1
      subst h2
      simp
  | memCopyRect p w =>
      simp only [runAppend, enqueueCommandBufferMemCopyRectHelper] at h
      rw [createSyncPoint_inOrder cb w false hIn] at h
      simp only [CommandBuffer.chooseCommandList, hIn, Bool.not_true,
        Bool.and_false, Bool.false_eq_true, if_false,
        CommandBuffer.appendNative, Except.ok.injEq, Prod.mk.injEq] at h
      obtain ⟨h1, h2⟩ := h
      subst h1
      subst h2
      simp
  | fill ps sz w env =>
      simp only [runAppend, enqueueCommandBufferFillHelper] at h
      split at h
      · rw [createSyncPoint_inOrder cb w true hIn] at h
        dsimp only at h
        cases hpf : preferCopyEngineForFill cb ps env with
        | error e => rw [hpf] at h; simp at h
        | ok b =>
            rw [hpf] at h
            simp only [CommandBuffer.chooseCommandList, hIn, Bool.not_true,
              Bool.and_false, Bool.false_eq_true, if_false,
              CommandBuffer.appendNative, Except.ok.injEq,
              Prod.mk.injEq] at h
            obtain ⟨h1, h2⟩ := h
            subst h1
            subst h2
            simp
      · simp at h
  | usmPrefetch w =>
      simp only [runAppend, urCommandBufferAppendUSMPrefetchExp, hIn,
        if_true, Except.ok.injEq, Prod.mk.injEq] at h
      obtain ⟨h1, h2⟩ := h
      subst h1
      subst h2
      simp [CommandBuffer.appendCompute, hIn]
  | usmAdvise w =>
      simp only [runAppend, urCommandBufferAppendUSMAdviseExp, hIn,
        if_true, Except.ok.injEq, Prod.mk.injEq] at h
      obtain ⟨h1, h2⟩ := h
      subst h1
      subst h2
      simp [CommandBuffer.appendCompute, hIn]

/-- Helper: the in-order invariant over a whole append sequence. -/
theorem runAppends_inOrder_inv (ops : List AppendOp) :
    ∀ (cb cb' : CommandBuffer) (sps : List (Option Nat)),
      cb.isInOrderCmdList = true → runAppends cb ops = .ok (cb', sps) →
      cb'.syncPoints = cb.syncPoints ∧
        cb'.nextSyncPoint = cb.nextSyncPoint ∧
        cb'.isInOrderCmdList = true ∧ ∀ s ∈ sps, s = none := by
  induction ops with
  | nil =>
      intro cb cb' sps hIn h
      simp only [runAppends, Except.ok.injEq, Prod.mk.injEq] at h
      obtain ⟨h1, h2⟩ := h
      subst h1
      subst h2
      exact ⟨rfl, rfl, hIn, by simp⟩
  | cons op rest ih =>
      intro cb cb' sps hIn h
      simp only [runAppends] at h
      cases h1 : runAppend cb op with
      | error e => rw [h1] at h; simp at h
      | ok p =>
          obtain ⟨cb1, sp⟩ := p
          rw [h1] at h
          dsimp only at h
          cases h2 : runAppends cb1 rest with
          | error e => rw [h2] at h; simp at h
          | ok q =>
              obtain ⟨cb2, sps2⟩ := q
              rw [h2] at h
              simp only [Except.ok.injEq, Prod.mk.injEq] at h
              obtain ⟨hc, hs⟩ := h
              subst hc
              subst hs
              have step := runAppend_inOrder_step cb op cb1 sp hIn h1
              have tail := ih cb1 cb2 sps2 step.2.2.2 h2
              refine ⟨tail.1.trans step.1, tail.2.1.trans step.2.1,
                tail.2.2.1, ?_⟩
              intro s hs
              rcases List.mem_cons.mp hs with h | h
              · exact h.symm ▸ step.2.2.1
              · exact tail.2.2.2 s h

/-- Helper: the observable state of a freshly created buffer. -/
theorem create_ok_state (platform : Platform) (device : Device)
    (desc : Option CommandBufferDesc) (cb0 : CommandBuffer)
    (h : urCommandBufferCreateExp platform device desc = .ok cb0) :
    cb0.syncPoints = [] ∧ cb0.nextSyncPoint = 0 ∧
      cb0.mCopyCommandListEmpty = true ∧ cb0.isFinalized = false ∧
      cb0.isInOrderCmdList = canBeInOrder platform desc := by
  unfold urCommandBufferCreateExp at h
  dsimp only at h
  split at h
  · simp at h
  · injection h with h
    subst h
    exact ⟨rfl, rfl, rfl, rfl, rfl⟩

/-- C2: on a buffer created in order, no append ever inserts into the
sync-point registry or advances the sync-point counter, and no append
returns a sync point to the caller: over any successful append sequence
the registry stays empty, the counter stays at zero, and every returned
sync point is absent. -/
theorem inOrder_syncPoint_registry_stays_empty (platform : Platform)
    (device : Device) (desc : Option CommandBufferDesc)
    (cb0 cb : CommandBuffer) (ops : List AppendOp)
    (sps : List (Option Nat))
    (hCreate : urCommandBufferCreateExp platform device desc = .ok cb0)
    (hIn : cb0.isInOrderCmdList = true)
    (hRun : runAppends cb0 ops = .ok (cb, sps)) :
    cb.syncPoints = [] ∧ cb.nextSyncPoint = 0 ∧ ∀ s ∈ sps, s = none := by
  have hinit := create_ok_state platform device desc cb0 hCreate
  have hinv := runAppends_inOrder_inv ops cb0 cb sps hIn hRun
  exact ⟨hinv.1.trans hinit.1, hinv.2.1.trans hinit.2.1, hinv.2.2.2⟩

/-- Witness for C2: a five-operation in-order run on the sample device
leaves the registry empty, the counter at zero, and returns no sync
points. -/
theorem inOrder_syncPoint_registry_stays_empty_witness :
    inOrderRun.1.syncPoints = [] ∧ inOrderRun.1.nextSyncPoint = 0 ∧
      inOrderRun.2 = [none, none, none, none, none] := by
  have h := inOrder_syncPoint_registry_stays_empty samplePlatform
    sampleDevice (some inOrderDesc) cbInOrder inOrderRun.1 inOrderOps
    inOrderRun.2 (by decide) (by decide) (by decide)
  exact ⟨h.1, h.2.1, by decide⟩

/-- Helper: obtaining the per-queue fence does not change the copy-list
flag or the recorded lists. -/
theorem getFenceForQueue_fields (cb : CommandBuffer) (q : Nat) :
    (cb.getFenceForQueue q).1.mCopyCommandListEmpty =
      cb.mCopyCommandListEmpty ∧
    (cb.getFenceForQueue q).1.zeCopyCommandList = cb.zeCopyCommandList := by
  unfold CommandBuffer.getFenceForQueue
  split <;> simp

/-- Helper: a single append either leaves the copy-list flag and the copy
list untouched, or records on the copy list (growing it) and clears the
flag. -/
theorem runAppend_copyList_step (cb : CommandBuffer) (op : AppendOp)
    (cb' : CommandBuffer) (sp : Option Nat)
    (h : runAppend cb op = .ok (cb', sp)) :
    (cb'.mCopyCommandListEmpty = cb.mCopyCommandListEmpty ∧
      cb'.zeCopyCommandList = cb.zeCopyCommandList) ∨
    (cb'.mCopyCommandListEmpty = false ∧
      cb.zeCopyCommandList.length < cb'.zeCopyCommandList.length) := by
  cases op with
  | kernelLaunch k wd gwo gws lws w wc =>
      simp only [runAppend] at h
      cases happ : urCommandBufferAppendKernelLaunchExp cb k wd gwo gws lws
          w wc with
      | error e => rw [happ] at h; simp at h
      | ok t =>
          rw [happ] at h
          obtain ⟨cbk, spk, cmdk⟩ := t
          simp only [Except.ok.injEq, Prod.mk.injEq] at h
          obtain ⟨h1, h2⟩ := h
          subst h1
          subst h2
          have hprep := kernelLaunchPrepare_fields cb k wd lws wc
          unfold urCommandBufferAppendKernelLaunchExp at happ
          split at happ
          · simp at happ
          · split at happ
            · simp at happ
            · split at happ
              · simp at happ
              · cases hs : createSyncPointAndGetZeEvents
                    (kernelLaunchPrepare cb k wd lws wc).1 w false with
                | error e => rw [hs] at happ; simp at happ
                | ok r =>
                    rw [hs] at happ
                    dsimp only at happ
                    have hf := createSyncPoint_fields _ w false r hs
                    simp only [Except.ok.injEq, Prod.mk.injEq] at happ
                    obtain ⟨hk1, _, _⟩ := happ
                    subst hk1
                    left
                    constructor
                    · simpa [CommandBuffer.appendCompute] using
                        hf.1.trans hprep.2.2.2.1
                    · simpa [CommandBuffer.appendCompute] using
                        hf.2.1.trans hprep.2.2.2.2.1
  | memCopy p w =>
      simp only [runAppend, enqueueCommandBufferMemCopyHelper] at h
      cases hs : createSyncPointAndGetZeEvents cb w false with
      | error e => rw [hs] at h; simp at h
      | ok r =>
          rw [hs] at h
          dsimp only at h
          have hf := createSyncPoint_fields cb w false r hs
          unfold CommandBuffer.chooseCommandList at h
          by_cases hc : (p && r.cb.useCopyEngine && !r.cb.isInOrderCmdList) =
            true
          · rw [if_pos hc] at h
            simp only [Except.ok.injEq, Prod.mk.injEq] at h
            obtain ⟨h1, h2⟩ := h
            subst h1
            subst h2
            right
            constructor
            · simp [CommandBuffer.appendNative]
            · simp [CommandBuffer.appendNative, ← hf.2.1]
          · rw [if_neg hc] at h
            simp only [Except.ok.injEq, Prod.mk.injEq] at h
            obtain ⟨h1, h2⟩ := h
            subst h1
            subst h2
            left
            exact ⟨by simp [CommandBuffer.appendNative, hf.1],
              by simp [CommandBuffer.appendNative, hf.2.1]⟩
  | memCopyRect p w =>
      simp only [runAppend, enqueueCommandBufferMemCopyRectHelper] at h
      cases hs : createSyncPointAndGetZeEvents cb w false with
      | error e => rw [hs] at h; simp at h
      | ok r =>
          rw [hs] at h
          dsimp only at h
          have hf := createSyncPoint_fields cb w false r hs
          unfold CommandBuffer.chooseCommandList at h
          by_cases hc : (p && r.cb.useCopyEngine && !r.cb.isInOrderCmdList) =
            true
          · rw [if_pos hc] at h
            simp only [Except.ok.injEq, Prod.mk.injEq] at h
            obtain ⟨h1, h2⟩ := h
            subst h1
            subst h2
            right
            constructor
            · simp [CommandBuffer.appendNative]
            · simp [CommandBuffer.appendNative, ← hf.2.1]
          · rw [if_neg hc] at h
            simp only [Except.ok.injEq, Prod.mk.injEq] at h
            obtain ⟨h1, h2⟩ := h
            subst h1
            subst h2
            left
            exact ⟨by simp [CommandBuffer.appendNative, hf.1],
              by simp [CommandBuffer.appendNative, hf.2.1]⟩
  | fill ps sz w env =>
      simp only [runAppend, enqueueCommandBufferFillHelper] at h
      split at h
      · cases hs : createSyncPointAndGetZeEvents cb w true with
        | error e => rw [hs] at h; simp at h
        | ok r =>
            rw [hs] at h
            dsimp only at h
            have hf := createSyncPoint_fields cb w true r hs
            cases hpf : preferCopyEngineForFill r.cb ps env with
            | error e => rw [hpf] at h; simp at h
            | ok b =>
                rw [hpf] at h
                dsimp only at h
                unfold CommandBuffer.chooseCommandList at h
                by_cases hc : (b && r.cb.useCopyEngine &&
                    !r.cb.isInOrderCmdList) = true
                · rw [if_pos hc] at h
                  simp only [Except.ok.injEq, Prod.mk.injEq] at h
                  obtain ⟨h1, h2⟩ := h
                  subst h1
                  subst h2
                  right
                  constructor
                  · simp [CommandBuffer.appendNative]
                  · simp [CommandBuffer.appendNative, ← hf.2.1]
                · rw [if_neg hc] at h
                  simp only [Except.ok.injEq, Prod.mk.injEq] at h
                  obtain ⟨h1, h2⟩ := h
                  subst h1
                  subst h2
                  left
                  exact ⟨by simp [CommandBuffer.appendNative, hf.1],
                    by simp [CommandBuffer.appendNative, hf.2.1]⟩
      · simp at h
  | usmPrefetch w =>
      simp only [runAppend, urCommandBufferAppendUSMPrefetchExp] at h
      split at h
      · simp only [Except.ok.injEq, Prod.mk.injEq] at h
        obtain ⟨h1, h2⟩ := h
        subst h1
        subst h2
        left
        exact ⟨by simp [CommandBuffer.appendCompute],
          by simp [CommandBuffer.appendCompute]⟩
      · cases hs : createSyncPointAndGetZeEvents cb w true with
        | error e => rw [hs] at h; simp at h
        | ok r =>
            rw [hs] at h
            dsimp only at h
            have hf := createSyncPoint_fields cb w true r hs
            simp only [Except.ok.injEq, Prod.mk.injEq] at h
            obtain ⟨h1, h2⟩ := h
            subst h1
            subst h2
            left
            constructor
            · split <;> split <;>
                simp [CommandBuffer.appendCompute, hf.1]
            · split <;> split <;>
                simp [CommandBuffer.appendCompute, hf.2.1]
  | usmAdvise w =>
      simp only [runAppend, urCommandBufferAppendUSMAdviseExp] at h
      split at h
      · simp only [Except.ok.injEq, Prod.mk.injEq] at h
        obtain ⟨h1, h2⟩ := h
        subst h1
        subst h2
        left
        exact ⟨by simp [CommandBuffer.appendCompute],
          by simp [CommandBuffer.appendCompute]⟩
      · cases hs : createSyncPointAndGetZeEvents cb w true with
        | error e => rw [hs] at h; simp at h
        | ok r =>
            rw [hs] at h
            dsimp only at h
            have hf := createSyncPoint_fields cb w true r hs
            simp only [Except.ok.injEq, Prod.mk.injEq] at h
            obtain ⟨h1, h2⟩ := h
            subst h1
            subst h2
            left
            constructor
            · split <;> split <;>
                simp [CommandBuffer.appendCompute, hf.1]
            · split <;> split <;>
                simp [CommandBuffer.appendCompute, hf.2.1]

/-- Helper: the copy-list flag / copy-list growth invariant over a whole
append sequence. -/
theorem runAppends_copyList_inv (ops : List AppendOp) :
    ∀ (cb cb' : CommandBuffer) (sps : List (Option Nat)),
      runAppends cb ops = .ok (cb', sps) →
      (cb'.mCopyCommandListEmpty = cb.mCopyCommandListEmpty ∧
        cb'.zeCopyCommandList = cb.zeCopyCommandList) ∨
      (cb'.mCopyCommandListEmpty = false ∧
        cb.zeCopyCommandList.length < cb'.zeCopyCommandList.length) := by
  induction ops with
  | nil =>
      intro cb cb' sps h
      simp only [runAppends, Except.ok.injEq, Prod.mk.injEq] at h
      obtain ⟨h1, h2⟩ := h
      subst h1
      subst h2
      exact Or.inl ⟨rfl, rfl⟩
  | cons op rest ih =>
      intro cb cb' sps h
      simp only [runAppends] at h
      cases h1 : runAppend cb op with
      | error e => rw [h1] at h; simp at h
      | ok p =>
          obtain ⟨cb1, sp⟩ := p
          rw [h1] at h
          dsimp only at h
          cases h2 : runAppends cb1 rest with
          | error e => rw [h2] at h; simp at h
          | ok q =>
              obtain ⟨cb2, sps2⟩ := q
              rw [h2] at h
              simp only [Except.ok.injEq, Prod.mk.injEq] at h
              obtain ⟨hc, hs⟩ := h
              subst hc
              subst hs
              have step := runAppend_copyList_step cb op cb1 sp h1
              have tail := ih cb1 cb2 sps2 h2
              rcases step with ⟨s1, s2⟩ | ⟨s1, s2⟩ <;>
                rcases tail with ⟨t1, t2⟩ | ⟨t1, t2⟩
              · exact Or.inl ⟨t1.trans s1, t2.trans s2⟩
              · exact Or.inr ⟨t1, s2 ▸ t2⟩
              · exact Or.inr ⟨t1.trans s1, t2 ▸ s2⟩
              · exact Or.inr ⟨t1, Nat.lt_trans s2 t2⟩

/-- C3: enqueueing a buffer submits, in order, the reset-events list,
then the compute list with the per-queue fence attached, then — exactly
when the copy-list-non-empty flag was cleared by some earlier append that
recorded on the copy list — the copy list, and finally the signal list
(preceded by an auxiliary wait list only when caller wait events were
supplied).  The flag is clear precisely when some earlier append grew the
copy list. -/
theorem enqueue_submission_order_and_copy_flag (platform : Platform)
    (device : Device) (desc : Option CommandBufferDesc)
    (cb0 cb : CommandBuffer) (ops : List AppendOp)
    (sps : List (Option Nat)) (queue : Queue) (eventWaitList : List Nat)
    (wantEvent : Bool)
    (hCreate : urCommandBufferCreateExp platform device desc = .ok cb0)
    (hRun : runAppends cb0 ops = .ok (cb, sps)) :
    (urCommandBufferEnqueueExp cb queue eventWaitList wantEvent).2.1 =
      (if eventWaitList.length ≠ 0 then
        [Submission.waitCommandList queue.computeQueue]
       else []) ++
      [Submission.resetEventsList queue.computeQueue,
       Submission.computeList queue.computeQueue
         (cb.getFenceForQueue queue.computeQueue).2] ++
      (if cb.mCopyCommandListEmpty = false then
        [Submission.copyList queue.copyQueue]
       else []) ++
      [Submission.signalCommandList queue.computeQueue] ∧
    (cb.mCopyCommandListEmpty = false ↔
      cb0.zeCopyCommandList.length < cb.zeCopyCommandList.length) := by
  constructor
  · unfold urCommandBufferEnqueueExp
    dsimp only
    have hfence := (getFenceForQueue_fields cb queue.computeQueue).1
    rw [hfence]
    cases hm : cb.mCopyCommandListEmpty <;> simp
  · have hinit := create_ok_state platform device desc cb0 hCreate
    have hinv := runAppends_copyList_inv ops cb0 cb sps hRun
    rcases hinv with ⟨t1, t2⟩ | ⟨t1, t2⟩
    · rw [t1, hinit.2.2.1, t2]
      constructor
      · intro hcontra; cases hcontra
      · intro hcontra; exact absurd hcontra (Nat.lt_irrefl _)
    · rw [t1]
      exact ⟨fun _ => t2, fun _ => rfl⟩

/-- Witness for C3: after the sample mixed run (whose buffer-write append
recorded on the copy list), the enqueue trace is reset list, compute list
with fence 0, copy list, signal list, and the flag is clear exactly
because the copy list grew. -/
theorem enqueue_submission_order_and_copy_flag_witness :
    (urCommandBufferEnqueueExp mixedRun.1 sampleQueue [] true).2.1 =
      [Submission.resetEventsList sampleQueue.computeQueue,
       Submission.computeList sampleQueue.computeQueue
         (mixedRun.1.getFenceForQueue sampleQueue.computeQueue).2,
       Submission.copyList sampleQueue.copyQueue,
       Submission.signalCommandList sampleQueue.computeQueue] ∧
      mixedRun.1.mCopyCommandListEmpty = false := by
  have h := enqueue_submission_order_and_copy_flag samplePlatform
    sampleDevice (some baseDesc) cbBase mixedRun.1 mixedOps mixedRun.2
    sampleQueue [] true (by decide) (by decide)
  exact ⟨h.1.trans (by decide), by decide⟩

/-- Helper: the global-offset helper can only fail with invalid value. -/
theorem setKernelGlobalOffset_error_code (cb : CommandBuffer) (k : Kernel)
    (gwo : List Nat) (e : UrResult)
    (h : setKernelGlobalOffset cb k gwo = .error e) :
    e = .errorInvalidValue := by
  unfold setKernelGlobalOffset at h
  dsimp only at h
  split at h
  · injection h with h; exact h.symm
  · cases h

/-- Helper: the modelled work-dimension computation always succeeds. -/
theorem calculateKernelWorkDimensions_ok (wd : Nat) (gws : List Nat)
    (lws : Option (List Nat)) (e : UrResult) :
    calculateKernelWorkDimensions wd gws lws ≠ .error e := by
  cases lws <;> simp [calculateKernelWorkDimensions]

/-- Helper: the fill engine-preference helper can only fail with invalid
value. -/
theorem preferCopyEngineForFill_error_code (cb : CommandBuffer)
    (ps : Nat) (env : Bool) (e : UrResult)
    (h : preferCopyEngineForFill cb ps env = .error e) :
    e = .errorInvalidValue := by
  unfold preferCopyEngineForFill at h
  dsimp only at h
  split at h
  · cases h
  · split at h
    · injection h with h; exact h.symm
    · cases h

/-- Helper: an append can only fail with invalid value (bad wait list or
fill pattern) or invalid null pointer (kernel without a program); in
particular never with invalid operation. -/
theorem runAppend_error_code (cb : CommandBuffer) (op : AppendOp)
    (e : UrResult) (h : runAppend cb op = .error e) :
    e = .errorInvalidValue ∨ e = .errorInvalidNullPointer := by
  cases op with
  | kernelLaunch k wd gwo gws lws w wc =>
      simp only [runAppend] at h
      cases happ : urCommandBufferAppendKernelLaunchExp cb k wd gwo gws lws
          w wc with
      | ok t => rw [happ] at h; simp at h
      | error e2 =>
          rw [happ] at h
          injection h with h
          subst h
          unfold urCommandBufferAppendKernelLaunchExp at happ
          split at happ
          · injection happ with h2
            exact Or.inr h2.symm
          · split at happ
            · next e3 heq =>
                injection happ with h2
                subst h2
                cases gwo with
                | none => simp at heq
                | some offs =>
                    exact Or.inl
                      (setKernelGlobalOffset_error_code cb k offs _ heq)
            · split at happ
              · next e3 heq =>
                  exact absurd heq
                    (calculateKernelWorkDimensions_ok wd gws lws e3)
              · cases hs : createSyncPointAndGetZeEvents
                    (kernelLaunchPrepare cb k wd lws wc).1 w false with
                | ok r => rw [hs] at happ; simp at happ
                | error e4 =>
                    rw [hs] at happ
                    injection happ with h2
                    exact Or.inl
                      (h2 ▸ createSyncPoint_error_code _ w false e4 hs)
  | memCopy p w =>
      simp only [runAppend, enqueueCommandBufferMemCopyHelper] at h
      cases hs : createSyncPointAndGetZeEvents cb w false with
      | ok r => rw [hs] at h; simp at h
      | error e2 =>
          rw [hs] at h
          injection h with h
          exact Or.inl (h ▸ createSyncPoint_error_code cb w false e2 hs)
  | memCopyRect p w =>
      simp only [runAppend, enqueueCommandBufferMemCopyRectHelper] at h
      cases hs : createSyncPointAndGetZeEvents cb w false with
      | ok r => rw [hs] at h; simp at h
      | error e2 =>
          rw [hs] at h
          injection h with h
          exact Or.inl (h ▸ createSyncPoint_error_code cb w false e2 hs)
  | fill ps sz w env =>
      simp only [runAppend, enqueueCommandBufferFillHelper] at h
      split at h
      · cases hs : createSyncPointAndGetZeEvents cb w true with
        | error e2 =>
            rw [hs] at h
            injection h with h
            exact Or.inl (h ▸ createSyncPoint_error_code cb w true e2 hs)
        | ok r =>
            rw [hs] at h
            dsimp only at h
            cases hpf : preferCopyEngineForFill r.cb ps env with
            | error e3 =>
                rw [hpf] at h
                injection h with h
                exact Or.inl
                  (h ▸ preferCopyEngineForFill_error_code r.cb ps env e3 hpf)
            | ok b => rw [hpf] at h; simp at h
      · injection h with h
        exact Or.inl h.symm
  | usmPrefetch w =>
      simp only [runAppend, urCommandBufferAppendUSMPrefetchExp] at h
      split at h
      · simp at h
      · cases hs : createSyncPointAndGetZeEvents cb w true with
        | ok r => rw [hs] at h; simp at h
        | error e2 =>
            rw [hs] at h
            injection h with h
            exact Or.inl (h ▸ createSyncPoint_error_code cb w true e2 hs)
  | usmAdvise w =>
      simp only [runAppend, urCommandBufferAppendUSMAdviseExp] at h
      split at h
      · simp at h
      · cases hs : createSyncPointAndGetZeEvents cb w true with
        | ok r => rw [hs] at h; simp at h
        | error e2 =>
            rw [hs] at h
            injection h with h
            exact Or.inl (h ▸ createSyncPoint_error_code cb w true e2 hs)

/-- C1 (amended): neither finalize nor any append path checks the
isFinalized flag: finalizing an already-finalized buffer succeeds again
(re-appending the completion signalling and re-closing, never failing
with invalid operation), and an append on a finalized buffer is processed
like any other append — it can only fail with invalid value or invalid
null pointer, never with invalid operation, and on success it records as
usual.  The flag is consulted only by updateKernelLaunch. -/
theorem finalize_and_append_ignore_isFinalized (cb : CommandBuffer)
    (op : AppendOp) (hFin : cb.isFinalized = true) :
    exceptIsOk (urCommandBufferFinalizeExp cb) = true ∧
      urCommandBufferFinalizeExp cb ≠ .error .errorInvalidOperation ∧
      runAppend cb op ≠ .error .errorInvalidOperation := by
  refine ⟨rfl, ?_, ?_⟩
  · intro hcontra
    unfold urCommandBufferFinalizeExp at hcontra
    cases hcontra
  · intro hcontra
    rcases runAppend_error_code cb op _ hcontra with h | h <;> cases h

/-- Witness for C1 (amended) on the finalized sample buffer. -/
theorem finalize_and_append_ignore_isFinalized_witness :
    exceptIsOk (urCommandBufferFinalizeExp cbBaseFinalized) = true ∧
      urCommandBufferFinalizeExp cbBaseFinalized ≠
        .error .errorInvalidOperation ∧
      runAppend cbBaseFinalized (.usmAdvise []) ≠
        .error .errorInvalidOperation :=
  finalize_and_append_ignore_isFinalized cbBaseFinalized (.usmAdvise [])
    (by decide)

/-- Counterexample to C1 as stated: on the concrete finalized buffer, a
second finalize succeeds rather than failing with invalid operation, and
a memory-copy append also succeeds — recording a command on the compute
list and a new sync point — instead of failing with invalid operation
without recording anything. -/
theorem double_finalize_and_append_after_finalize_counterexample :
    cbBaseFinalized.isFinalized = true ∧
      urCommandBufferFinalizeExp cbBaseFinalized ≠
        .error .errorInvalidOperation ∧
      exceptIsOk (urCommandBufferFinalizeExp cbBaseFinalized) = true ∧
      runAppend cbBaseFinalized (.memCopy false []) =
        .ok memCopyAfterFinalize ∧
      memCopyAfterFinalize.1.zeComputeCommandList.length =
        cbBaseFinalized.zeComputeCommandList.length + 1 ∧
      memCopyAfterFinalize.1.nextSyncPoint =
        cbBaseFinalized.nextSyncPoint + 1 := by
  refine ⟨by decide, ?_, by decide, by decide, by decide, by decide⟩
  intro hcontra
  unfold urCommandBufferFinalizeExp at hcontra
  cases hcontra

/-- Helper: full characterization of the fill engine-preference helper:
it fails with invalid value exactly when a copy engine exists and the
pattern fits neither engine, and otherwise computes the preference as
(copy engine present and pattern fits it and the environment override is
enabled). -/
theorem preferCopyEngineForFill_spec (cbx : CommandBuffer) (ps : Nat)
    (env : Bool) :
    (cbx.useCopyEngine = true ∧
        cbx.device.copyMaxMemoryFillPatternSize < ps ∧
        cbx.device.computeMaxMemoryFillPatternSize < ps →
      preferCopyEngineForFill cbx ps env = .error .errorInvalidValue) ∧
    (¬(cbx.useCopyEngine = true ∧
        cbx.device.copyMaxMemoryFillPatternSize < ps ∧
        cbx.device.computeMaxMemoryFillPatternSize < ps) →
      preferCopyEngineForFill cbx ps env =
        .ok (cbx.useCopyEngine &&
          decide (ps ≤ cbx.device.copyMaxMemoryFillPatternSize) && env)) := by
  constructor
  · rintro ⟨huse, hcopy, hcompute⟩
    unfold preferCopyEngineForFill
    simp [huse, Nat.not_le_of_lt hcopy, Nat.not_le_of_lt hcompute,
      Nat.lt_iff_add_one_le, -Nat.not_le]
  · intro hne
    unfold preferCopyEngineForFill
    by_cases huse : cbx.useCopyEngine = true
    · by_cases hcopy : ps ≤ cbx.device.copyMaxMemoryFillPatternSize
      · simp [huse, hcopy]
      · by_cases hcompute : ps ≤ cbx.device.computeMaxMemoryFillPatternSize
        · simp [huse, hcopy, hcompute]
        · exact absurd ⟨huse, Nat.lt_of_not_le hcopy,
            Nat.lt_of_not_le hcompute⟩ hne
    · have huse2 : cbx.useCopyEngine = false := Bool.eq_false_iff.mpr huse
      simp [huse2]

/-- C4 (amended): for a power-of-two pattern size, and given the sync
point for the fill was creatable, the fill append fails with invalid
value exactly when the device has a copy engine and the pattern exceeds
both engines' maxima; otherwise it succeeds and the native fill is
recorded on the copy list exactly when the device has a copy engine, the
pattern fits the copy engine's maximum, the copy-engine-for-fill
environment override is enabled, and the buffer is not in order — in
every other successful case it is recorded on the compute list. -/
theorem fill_engine_selection_characterization (cb : CommandBuffer)
    (patternSize size : Nat) (waitList : List Nat) (env : Bool)
    (hPow : 0 < patternSize ∧ patternSize &&& (patternSize - 1) = 0) :
    (∀ r, createSyncPointAndGetZeEvents cb waitList true = .ok r →
      (enqueueCommandBufferFillHelper cb patternSize size waitList env =
          .error .errorInvalidValue ↔
        (cb.useCopyEngine = true ∧
          cb.device.copyMaxMemoryFillPatternSize < patternSize ∧
          cb.device.computeMaxMemoryFillPatternSize < patternSize))) ∧
    (∀ cb' sp,
      enqueueCommandBufferFillHelper cb patternSize size waitList env =
        .ok (cb', sp) →
      ((cb'.zeCopyCommandList.length = cb.zeCopyCommandList.length + 1 ∧
          cb'.zeComputeCommandList.length =
            cb.zeComputeCommandList.length) ↔
        (cb.useCopyEngine = true ∧
          patternSize ≤ cb.device.copyMaxMemoryFillPatternSize ∧
          env = true ∧ cb.isInOrderCmdList = false)) ∧
      ((cb'.zeComputeCommandList.length =
          cb.zeComputeCommandList.length + 1 ∧
          cb'.zeCopyCommandList.length = cb.zeCopyCommandList.length) ↔
        ¬(cb.useCopyEngine = true ∧
          patternSize ≤ cb.device.copyMaxMemoryFillPatternSize ∧
          env = true ∧ cb.isInOrderCmdList = false))) := by
  constructor
  · intro r hr
    have hf := createSyncPoint_fields cb waitList true r hr
    have huse : r.cb.useCopyEngine = cb.useCopyEngine := by
      simp [CommandBuffer.useCopyEngine, hf.2.2.2.2.1]
    by_cases hcond : cb.useCopyEngine = true ∧
        cb.device.copyMaxMemoryFillPatternSize < patternSize ∧
        cb.device.computeMaxMemoryFillPatternSize < patternSize
    · have hpf := (preferCopyEngineForFill_spec r.cb patternSize env).1
        (by rw [huse, hf.2.2.2.2.2]; exact hcond)
      unfold enqueueCommandBufferFillHelper
      rw [if_pos hPow, hr]
      dsimp only
      rw [hpf]
      simp [hcond]
    · have hpf := (preferCopyEngineForFill_spec r.cb patternSize env).2
        (by rw [huse, hf.2.2.2.2.2]; exact hcond)
      unfold enqueueCommandBufferFillHelper
      rw [if_pos hPow, hr]
      dsimp only
      rw [hpf]
      simp [hcond]
  · intro cb' sp hfill
    unfold enqueueCommandBufferFillHelper at hfill
    rw [if_pos hPow] at hfill
    cases hr : createSyncPointAndGetZeEvents cb waitList true with
    | error e => rw [hr] at hfill; simp at hfill
    | ok r =>
        rw [hr] at hfill
        dsimp only at hfill
        have hf := createSyncPoint_fields cb waitList true r hr
        have huse : r.cb.useCopyEngine = cb.useCopyEngine := by
          simp [CommandBuffer.useCopyEngine, hf.2.2.2.2.1]
        by_cases hcond : cb.useCopyEngine = true ∧
            cb.device.copyMaxMemoryFillPatternSize < patternSize ∧
            cb.device.computeMaxMemoryFillPatternSize < patternSize
        · have hpf := (preferCopyEngineForFill_spec r.cb patternSize env).1
            (by rw [huse, hf.2.2.2.2.2]; exact hcond)
          rw [hpf] at hfill
          simp at hfill
        · have hpf := (preferCopyEngineForFill_spec r.cb patternSize env).2
            (by rw [huse, hf.2.2.2.2.2]; exact hcond)
          rw [hpf] at hfill
          dsimp only at hfill
          unfold CommandBuffer.chooseCommandList at hfill
          have hsel : ((r.cb.useCopyEngine &&
              decide (patternSize ≤
                r.cb.device.copyMaxMemoryFillPatternSize) && env) &&
              r.cb.useCopyEngine && !r.cb.isInOrderCmdList) = true ↔
              (cb.useCopyEngine = true ∧
                patternSize ≤ cb.device.copyMaxMemoryFillPatternSize ∧
                env = true ∧ cb.isInOrderCmdList = false) := by
            rw [huse, hf.2.2.2.2.2, hf.2.2.2.1]
            simp only [Bool.and_eq_true, Bool.not_eq_true',
              decide_eq_true_eq]
            tauto
          by_cases hc : ((r.cb.useCopyEngine &&
              decide (patternSize ≤
                r.cb.device.copyMaxMemoryFillPatternSize) && env) &&
              r.cb.useCopyEngine && !r.cb.isInOrderCmdList) = true
          · rw [if_pos hc] at hfill
            simp only [Except.ok.injEq, Prod.mk.injEq] at hfill
            obtain ⟨h1, h2⟩ := hfill
            subst h1
            subst h2
            have hrhs := hsel.mp hc
            constructor
            · simp [CommandBuffer.appendNative, hf.2.1, hf.2.2.1, hrhs]
            · simp [CommandBuffer.appendNative, hf.2.1, hf.2.2.1, hrhs]
          · rw [if_neg hc] at hfill
            simp only [Except.ok.injEq, Prod.mk.injEq] at hfill
            obtain ⟨h1, h2⟩ := hfill
            subst h1
            subst h2
            have hrhs : ¬(cb.useCopyEngine = true ∧
                patternSize ≤ cb.device.copyMaxMemoryFillPatternSize ∧
                env = true ∧ cb.isInOrderCmdList = false) := by
              intro hcontra
              exact hc (hsel.mpr hcontra)
            constructor
            · simp [CommandBuffer.appendNative, hf.2.1, hf.2.2.1, hrhs]
            · simp [CommandBuffer.appendNative, hf.2.1, hf.2.2.1, hrhs]

/-- Witness for C4: on the sample buffer with the override enabled, an
8-byte-pattern fill is recorded on the copy list; with the override
disabled an oversized 32-byte pattern fails with invalid value. -/
theorem fill_engine_selection_characterization_witness :
    (fillRunEnv.1.zeCopyCommandList.length =
        cbBase.zeCopyCommandList.length + 1 ∧
      fillRunEnv.1.zeComputeCommandList.length =
        cbBase.zeComputeCommandList.length) ∧
      enqueueCommandBufferFillHelper cbBase 32 64 [] false =
        .error .errorInvalidValue := by
  constructor
  · exact ((fill_engine_selection_characterization cbBase 8 64 [] true
      (by decide)).2 fillRunEnv.1 fillRunEnv.2 (by decide)).1.mpr (by decide)
  · exact ((fill_engine_selection_characterization cbBase 32 64 [] false
      (by decide)).1 syncCbBase (by decide)).mpr (by decide)

/-- Counterexample to C4 as stated: on the sample device (copy engine
present, pattern size 4 within its 16-byte maximum) but with the
environment override unset, the fill is recorded on the compute list, not
the copy list, contradicting the claimed "exactly when". -/
theorem fill_copy_engine_env_gate_counterexample :
    sampleDevice.hasMainCopyEngine = true ∧
      (4 : Nat) ≤ sampleDevice.copyMaxMemoryFillPatternSize ∧
      cbBase.isInOrderCmdList = false ∧
      enqueueCommandBufferFillHelper cbBase 4 64 [] false =
        .ok fillRunDefaultEnv ∧
      fillRunDefaultEnv.1.zeCopyCommandList = cbBase.zeCopyCommandList ∧
      fillRunDefaultEnv.1.zeComputeCommandList.length =
        cbBase.zeComputeCommandList.length + 1 := by
  refine ⟨by decide, by decide, by decide, by decide, by decide, by decide⟩

/-- C10: a creation descriptor requesting isInOrder on a driver older
than the in-order minimum still succeeds — no error is reported — but the
buffer is silently non-in-order, and an append on it goes through the
sync-point machinery (here: a memory copy registers sync point 0 mapped
to a fresh event and advances the counter to 1). -/
theorem create_inOrder_old_driver_silently_non_inOrder
    (platform : Platform) (device : Device) (desc : CommandBufferDesc)
    (hInReq : desc.isInOrder = true)
    (hOld : platform.driverInOrderCompatible = false)
    (hMut : desc.isUpdatable = true →
      platform.zeMutableCmdListExtSupported = true) :
    exceptIsOk (urCommandBufferCreateExp platform device (some desc)) =
      true ∧
    ∀ cb, urCommandBufferCreateExp platform device (some desc) = .ok cb →
      cb.isInOrderCmdList = false ∧
      exceptIsOk (runAppend cb (.memCopy false [])) = true ∧
      ∀ cb1 sp, runAppend cb (.memCopy false []) = .ok (cb1, sp) →
        sp = some 0 ∧ cb1.nextSyncPoint = 1 ∧ cb1.syncPoints = [(0, 3)] := by
  have hcond : (desc.isUpdatable &&
      !platform.zeMutableCmdListExtSupported) = false := by
    cases hu : desc.isUpdatable
    · rfl
    · rw [hMut hu]
      rfl
  constructor
  · unfold urCommandBufferCreateExp
    dsimp only
    rw [hcond]
    simp [exceptIsOk]
  · intro cb hcb
    unfold urCommandBufferCreateExp at hcb
    dsimp only at hcb
    rw [hcond] at hcb
    simp only [Bool.false_eq_true, if_false, Except.ok.injEq] at hcb
    subst hcb
    have hio : canBeInOrder platform (some desc) = false := by
      unfold canBeInOrder
      rw [hOld]
      simp
    refine ⟨hio, ?_, ?_⟩
    · simp [runAppend, enqueueCommandBufferMemCopyHelper,
        createSyncPointAndGetZeEvents, hio, getEventsFromSyncPoints,
        CommandBuffer.getNextSyncPoint, CommandBuffer.registerSyncPoint,
        insertSyncPoint, CommandBuffer.chooseCommandList,
        CommandBuffer.appendNative, exceptIsOk]
    · intro cb1 sp h
      simp only [runAppend, enqueueCommandBufferMemCopyHelper,
        createSyncPointAndGetZeEvents, hio, getEventsFromSyncPoints,
        CommandBuffer.getNextSyncPoint, CommandBuffer.registerSyncPoint,
        insertSyncPoint, CommandBuffer.chooseCommandList,
        CommandBuffer.appendNative, Bool.false_eq_true, if_false,
        Except.ok.injEq, Prod.mk.injEq] at h
      obtain ⟨h1, h2⟩ := h
      subst h1
      subst h2
      exact ⟨rfl, rfl, rfl⟩

/-- Witness for C10 on the old-driver platform with an in-order
request. -/
theorem create_inOrder_old_driver_silently_non_inOrder_witness :
    exceptIsOk (urCommandBufferCreateExp platformOldDriver sampleDevice
      (some inOrderDesc)) = true ∧
    cbOldDriver.isInOrderCmdList = false ∧
    oldDriverCopyRun.2 = some 0 ∧
    oldDriverCopyRun.1.nextSyncPoint = 1 ∧
    oldDriverCopyRun.1.syncPoints = [(0, 3)] := by
  have h := create_inOrder_old_driver_silently_non_inOrder
    platformOldDriver sampleDevice inOrderDesc (by decide) (by decide)
    (by decide)
  have h2 := h.2 cbOldDriver (by decide)
  have h3 := h2.2.2 oldDriverCopyRun.1 oldDriverCopyRun.2 (by decide)
  exact ⟨h.1, h2.1, h3.1, h3.2.1, h3.2.2⟩

end CommandBufferModel
